import Mathlib

/-!
Shallow embedding of the `bona-bot-builder` bot runtime: the Response Engine
(`core/ai_engine.py`), the Bot Worker (`core/ghost_bot.py`), the Runtime Manager
(`ghost_manager.py`), the persistence queries they rely on (`database/crud.py`)
and the language helper (`utils/language.py`).

Python strings are modelled as Lean `String`; the text primitives the code uses
(`str.lower`, `str.split`, `str.strip`, substring containment, `str.replace`,
`str.capitalize`) are implemented here by structural recursion over `List Char`
so that every definition is executable and kernel-reducible.  Python `dict`s of
token frequencies are modelled as insertion-ordered association lists, which is
exactly the iteration order Python 3.7+ dictionaries guarantee.  Python floats
are modelled as `ℚ`: every quantity the code computes (`count / len`,
`total / 1000`, the literals `0.3` and `1.0`) is an exact small rational, far
from any double-rounding boundary.  Timestamps (`datetime.now()`) are modelled
as `Nat` instants ordered by `<`.
-/

set_option linter.unusedVariables false

/-- Characters Python's `str.split()` (no separator) splits on, restricted to the
ASCII whitespace characters; `str.strip()` strips the same set. -/
def isSpaceChar (c : Char) : Bool :=
  c = ' ' || c = '\t' || c = '\n' || c = '\r' || c = '\x0b' || c = '\x0c'

/-- `str.lower()` on a single character (ASCII case folding; the Bengali text in
the tables is caseless). -/
def pyCharLower (c : Char) : Char := c.toLower

/-- `str.lower()`. -/
def pyLower (s : String) : String := String.mk (s.data.map pyCharLower)

/-- `str.strip()`: drop leading and trailing whitespace. -/
def pyStrip (s : String) : String :=
  String.mk (((s.data.dropWhile isSpaceChar).reverse.dropWhile isSpaceChar).reverse)

/-- Helper for `str.split()`: split a character list on runs of whitespace,
accumulating the current (reversed) token. -/
def pySplitChars (acc : List Char) : List Char → List (List Char)
  | [] => if acc = [] then [] else [acc.reverse]
  | c :: cs =>
    if isSpaceChar c then
      if acc = [] then pySplitChars [] cs else acc.reverse :: pySplitChars [] cs
    else
      pySplitChars (c :: acc) cs

/-- `str.split()` with no separator: whitespace-split, empty tokens dropped. -/
def pySplit (s : String) : List String := (pySplitChars [] s.data).map String.mk

/-- `needle` is a prefix of `hay` (character lists). -/
def charsStart : List Char → List Char → Bool
  | [], _ => true
  | _ :: _, [] => false
  | a :: as, b :: bs => a = b && charsStart as bs

/-- `needle` occurs as a contiguous run inside `hay` (character lists). -/
def charsContain (needle : List Char) : List Char → Bool
  | [] => needle.isEmpty
  | c :: cs => charsStart needle (c :: cs) || charsContain needle cs

/-- Python's `needle in hay` on strings: substring containment. -/
def strIn (needle hay : String) : Bool := charsContain needle.data hay.data

/-- Helper for `str.replace`: literal, non-overlapping, left-to-right
replacement over character lists. -/
def replaceChars (pat repl : List Char) : List Char → List Char
  | [] => []
  | c :: cs =>
    if h : pat ≠ [] ∧ charsStart pat (c :: cs) then
      repl ++ replaceChars pat repl (List.drop (pat.length - 1) cs)
    else
      c :: replaceChars pat repl cs
termination_by l => l.length
decreasing_by
  · simp only [List.length_cons]
    have := List.length_drop (pat.length - 1) cs
    omega
  · simp only [List.length_cons]; omega

/-- `str.replace(pat, repl)` for a non-empty pattern (every call site in the
embedded code uses a non-empty literal pattern; Python's behaviour on the empty
pattern, interspersing `repl`, is not needed and the empty pattern is mapped to
the identity). -/
def pyReplace (s pat repl : String) : String :=
  String.mk (replaceChars pat.data repl.data s.data)

/-- `str.capitalize()`: first character upper-cased, the rest lower-cased. -/
def pyCapitalize (s : String) : String :=
  match s.data with
  | [] => ""
  | c :: cs => String.mk (c.toUpper :: cs.map pyCharLower)

/-! ### Frequency maps

A Python `dict[str, int]` of token frequencies: an insertion-ordered
association list.  `dictSet` overwrites the first binding of the key and
otherwise appends at the end, exactly the Python `d[k] = v` order semantics. -/

/-- A Python `dict[str, int]`, in insertion order. -/
abbrev FreqMap := List (String × Nat)

/-- `d.get(k, dflt)`. -/
def dictGetD (m : FreqMap) (k : String) (dflt : Nat) : Nat :=
  match m.find? (fun p => p.1 == k) with
  | some p => p.2
  | none => dflt

/-- `k in d`. -/
def dictContains (m : FreqMap) (k : String) : Bool :=
  (m.find? (fun p => p.1 == k)).isSome

/-- `d[k] = v`: overwrite the first binding of `k`, else append. -/
def dictSet : FreqMap → String → Nat → FreqMap
  | [], k, v => [(k, v)]
  | p :: ps, k, v => if p.1 == k then (k, v) :: ps else p :: dictSet ps k v

/-! ### Language helper (`utils/language.py`)

The `bangla` branch of `translate` runs a chain of `re.sub` substitutions.
They are embedded below: emoticon entries are literal case-insensitive
substitutions (the Python source applies `re.escape` to the key), word entries
are case-insensitive substitutions guarded by `\b` word boundaries on both
sides.  Python's word characters (`re.UNICODE`) are modelled for the character
ranges that occur in this repository's data: ASCII alphanumerics, underscore,
and the Bengali block U+0980–U+09FF. -/

/-- Case-insensitive character equality (ASCII folding). -/
def ciEq (a b : Char) : Bool := pyCharLower a = pyCharLower b

/-- Case-insensitive prefix test on character lists. -/
def ciStarts : List Char → List Char → Bool
  | [], _ => true
  | _ :: _, [] => false
  | a :: as, b :: bs => ciEq a b && ciStarts as bs

/-- A `\w` word character as in Python `re` with `re.UNICODE`, for the ASCII
and Bengali ranges occurring in the repository's tables. -/
def isWordChar (c : Char) : Bool :=
  c.isAlphanum || c = '_' || (0x980 ≤ c.toNat && c.toNat ≤ 0x9FF)

/-- Word-character test on an optional neighbouring character (text boundary
counts as a non-word character). -/
def wordOpt : Option Char → Bool
  | none => false
  | some c => isWordChar c

/-- Model of `re.sub(re.escape(pat), repl, s, flags=re.IGNORECASE)`: literal
case-insensitive non-overlapping left-to-right substitution. -/
def subCI (pat repl : List Char) : List Char → List Char
  | [] => []
  | c :: cs =>
    if h : pat ≠ [] ∧ ciStarts pat (c :: cs) then
      repl ++ subCI pat repl (List.drop (pat.length - 1) cs)
    else
      c :: subCI pat repl cs
termination_by l => l.length
decreasing_by
  · simp only [List.length_cons]
    have := List.length_drop (pat.length - 1) cs
    omega
  · simp only [List.length_cons]; omega

/-- Model of `re.sub(r'\b' + re.escape(pat) + r'\b', repl, s,
flags=re.IGNORECASE)`.  `prev` is the character of the original text just
before the current scan position (`none` at the start of the text); a `\b`
boundary holds where exactly one side is a word character. -/
def subWordCI (pat repl : List Char) : Option Char → List Char → List Char
  | _, [] => []
  | prev, c :: cs =>
    if h : pat ≠ [] ∧ ciStarts pat (c :: cs) ∧
        wordOpt prev ≠ wordOpt (some c) ∧
        wordOpt ((c :: cs).take pat.length).getLast? ≠
          wordOpt ((c :: cs).drop pat.length).head? then
      repl ++ subWordCI pat repl ((c :: cs).take pat.length).getLast?
        (List.drop (pat.length - 1) cs)
    else
      c :: subWordCI pat repl (some c) cs
termination_by _ l => l.length
decreasing_by
  · simp only [List.length_cons]
    have := List.length_drop (pat.length - 1) cs
    omega
  · simp only [List.length_cons]; omega

namespace LanguageManager

/-- The `BANGLISH_TO_BANGLA` table, in source order.  The Python keys `":\)"`
etc. are ordinary (non-raw) string literals, so they contain a literal
backslash character before the parenthesis. -/
def BANGLISH_TO_BANGLA : List (String × String) := [
  ("ami", "আমি"),
  ("tumi", "তুমি"),
  ("apni", "আপনি"),
  ("valo", "ভালো"),
  ("kharap", "খারাপ"),
  ("achhi", "আছি"),
  ("acho", "আছো"),
  ("achen", "আছেন"),
  ("ki", "কী"),
  ("kemon", "কেমন"),
  ("kno", "কেন"),
  ("kothay", "কোথায়"),
  ("kokhon", "কখন"),
  ("ke", "কে"),
  ("ki kor", "কী কর"),
  ("ki korch", "কী করছ"),
  ("ki korchen", "কী করছেন"),
  ("jan", "জান"),
  ("jani", "জানি"),
  ("janno", "জানো"),
  ("janen", "জানেন"),
  ("chai", "চাই"),
  ("chaile", "চাইলে"),
  ("hoy", "হয়"),
  ("hoyeche", "হয়েছে"),
  ("hoyni", "হয়নি"),
  ("hobe", "হবে"),
  ("hoyto", "হতে"),
  ("ache", "আছে"),
  ("nai", "নাই"),
  ("nei", "নেই"),
  ("onek", "অনেক"),
  ("valo lage", "ভালো লাগে"),
  ("valo lagena", "ভালো লাগেনা"),
  ("amar", "আমার"),
  ("tomar", "তোমার"),
  ("apnar", "আপনার"),
  ("tar", "তার"),
  ("amader", "আমাদের"),
  ("tomader", "তোমাদের"),
  ("apnader", "আপনাদের"),
  ("tader", "তাদের"),
  ("ki obostha", "কী অবস্থা"),
  ("ki khobor", "কী খবর"),
  ("kothay achen", "কোথায় আছেন"),
  ("ki korchen", "কী করছেন"),
  ("ki jani na", "কী জানি না"),
  ("thik ache", "ঠিক আছে"),
  ("kono somossa nai", "কোন সমস্যা নেই"),
  ("somossa ache", "সমস্যা আছে"),
  ("valo thakben", "ভালো থাকবেন"),
  ("allahr rohomot", "আল্লাহর রহমত"),
  ("inshallah", "ইনশাআল্লাহ"),
  ("mashallah", "মাশাআল্লাহ"),
  ("alhamdulillah", "আলহামদুলিল্লাহ"),
  (":\\)", "😊"),
  (":D", "😃"),
  (":\\(", "😔"),
  (";\\)", "😉"),
  (":P", "😛"),
  (":O", "😮"),
  (":\\|", "😐"),
  (":\\/", "😕"),
  ("<3", "❤️"),
  (":\\*", "😘")]

/-- The `ENGLISH_TO_BANGLA` table, in source order. -/
def ENGLISH_TO_BANGLA : List (String × String) := [
  ("hello", "হ্যালো"),
  ("hi", "হাই"),
  ("how", "কেমন"),
  ("are", "আছ"),
  ("you", "তুমি/আপনি"),
  ("i", "আমি"),
  ("am", "আছি"),
  ("good", "ভালো"),
  ("bad", "খারাপ"),
  ("what", "কী"),
  ("why", "কেন"),
  ("where", "কোথায়"),
  ("when", "কখন"),
  ("who", "কে"),
  ("help", "সাহায্য"),
  ("need", "দরকার"),
  ("want", "চাই"),
  ("thank", "ধন্যবাদ"),
  ("thanks", "থ্যাঙ্কস"),
  ("please", "দয়া করে"),
  ("sorry", "দুঃখিত"),
  ("yes", "হ্যাঁ"),
  ("no", "না"),
  ("ok", "ওকে"),
  ("okay", "ঠিক আছে"),
  ("problem", "সমস্যা"),
  ("solution", "সমাধান"),
  ("work", "কাজ"),
  ("not", "না"),
  ("working", "কাজ করছে"),
  ("broken", "ভাঙ্গা"),
  ("fix", "ঠিক করা")]

/-- `LanguageManager._to_bangla`: emoticon pass, then Banglish word pass, then
English word pass, each folding over its table in source order. -/
def toBangla (text : String) : String :=
  if text = "" then text
  else
    let r1 := BANGLISH_TO_BANGLA.foldl
      (fun r kv =>
        if charsStart [':'] kv.1.data then String.mk (subCI kv.1.data kv.2.data r.data)
        else r) text
    let r2 := BANGLISH_TO_BANGLA.foldl
      (fun r kv =>
        if charsStart [':'] kv.1.data then r
        else String.mk (subWordCI kv.1.data kv.2.data none r.data)) r1
    ENGLISH_TO_BANGLA.foldl
      (fun r kv => String.mk (subWordCI kv.1.data kv.2.data none r.data)) r2

/-- `LanguageManager._to_banglish`: the source returns the text unchanged. -/
def toBanglish (text : String) : String := text

/-- `LanguageManager.translate`. -/
def translate (text : String) (target_lang : String) : String :=
  if target_lang = "bangla" then toBangla text
  else if target_lang = "banglish" then toBanglish text
  else text

end LanguageManager

/-! ### Response Engine (`core/ai_engine.py`) -/

/-- The rolling context blob stored in `Learning.context_data` (the keys the
code reads or writes: `user_name`, `last_interaction`, `total_interactions`). -/
structure ContextData where
  user_name : Option String
  last_interaction : Option Nat
  total_interactions : Nat
deriving DecidableEq

/-- The empty context blob (`{}`). -/
def ContextData.empty : ContextData := ⟨none, none, 0⟩

/-- The in-memory learning dictionary `AIEngine.learning_data[bot_id]` built by
`AIEngine.get_learning_data`. -/
structure LearningData where
  user_patterns : FreqMap
  response_patterns : FreqMap
  context_data : ContextData
  accuracy : ℚ
deriving DecidableEq

/-- Modelled from the spec: `utils/text_templates.py`
(`TextTemplates.get_response_templates`) is imported by the Response Engine but
the file is absent from the repository snapshot.  The spec only says the
heuristic stage "select[s] a random template from the intent's template
bucket", without fixing the buckets' contents, so the engine is parameterized
over the bucket map (`response_templates.get(key, [])`, missing keys mapped to
`[]`). -/
def ResponseTemplates := String → List String

/-- `random.choice(l)` modelled with an explicit random index `r` (reduced
modulo the list length; the result is always an element of a non-empty `l`). -/
def randomChoice (l : List String) (r : Nat) : String := l.getD (r % l.length) ""

namespace AIEngine

/-- The predefined greeting table of `check_predefined_responses`, in source
order. -/
def greetings : List (String × String) := [
  ("hello", "হ্যালো! কেমন আছেন? 😊"),
  ("hi", "হাই! ভালো আছি, আপনি? 💝"),
  ("hola", "ওহে! কী খবর? ✨"),
  ("hey", "হেই! কেমন চলছে? 🎯"),
  ("সালাম", "ওয়ালাইকুম আসসালাম! কেমন আছেন? 🤲"),
  ("হ্যালো", "হ্যালো! ভালো আছি, আপনিও ভালো থাকুন 🌟"),
  ("কেমন আছ", "আলহামদুলিল্লাহ ভালো আছি! আপনি কেমন আছেন? 😊"),
  ("খবর কি", "সব ভালো! আপনার কী খবর? 💫"),
  ("কি কর", "আপনার সাথে চ্যাট করছি! 😄"),
  ("ভাই", "জি বলুন ভাই, কীভাবে সাহায্য করতে পারি? 🛠️"),
  ("আপু", "জি আপু, কী করতে হবে? 💖"),
  ("বন্ধু", "হ্যালো বন্ধু! কেমন আছ? 👋")]

/-- The help keywords of `check_predefined_responses`. -/
def help_keywords : List String := ["help", "হেল্প", "সাহায্য", "জানি না", "কিভাবে"]

/-- The fixed reply returned when a help keyword matches. -/
def helpResponse : String := "কীভাবে সাহায্য করতে পারি? বিস্তারিত বলুন। 🤔"

/-- `AIEngine.check_predefined_responses`: first greeting key occurring as a
substring of the lower-cased message wins; otherwise the first matching help
keyword yields the fixed help reply. -/
def check_predefined_responses (message : String) : Option String :=
  match greetings.find? (fun kv => strIn kv.1 (pyLower message)) with
  | some kv => some kv.2
  | none =>
    match help_keywords.find? (fun k => strIn k (pyLower message)) with
    | some _ => some helpResponse
    | none => none

/-- The best-match fold of `check_learned_patterns`: iterate the inbound
frequency map in insertion order carrying `(best_score, best_match)`, updating
on a strictly greater `count / len(message_words)`. -/
def bestPattern (user_patterns : FreqMap) (message_words : List String) :
    ℚ × Option String :=
  user_patterns.foldl
    (fun acc p =>
      if p.1 ∈ message_words then
        let score : ℚ := (p.2 : ℚ) / (message_words.length : ℚ)
        if score > acc.1 then (score, some p.1) else acc
      else acc)
    (0, none)

/-- The acknowledgment string synthesized by `check_learned_patterns` from an
outbound token. -/
def ackOf (word : String) : String := pyCapitalize word ++ "... আরও বলুন।"

/-- `AIEngine.check_learned_patterns`.  `set(message.lower().split())` is
modelled as the deduplicated token list (only its membership and cardinality
are consumed).  The Python guard `if best_match and best_score > 0.3` requires
a non-`None`, non-empty best match (truthiness); the returned acknowledgment
references the first word of the outbound map with frequency above 5, in
insertion order. -/
def check_learned_patterns (learning : LearningData) (message : String) :
    Option String :=
  if learning.user_patterns.isEmpty || learning.response_patterns.isEmpty then none
  else
    let message_words := (pySplit (pyLower message)).dedup
    let best := bestPattern learning.user_patterns message_words
    match best.2 with
    | none => none
    | some bm =>
      if bm ≠ "" ∧ best.1 > (3 : ℚ) / 10 then
        match learning.response_patterns.find? (fun kv => kv.2 > 5) with
        | some kv => some (ackOf kv.1)
        | none => none
      else none

/-- The positive keyword list of `analyze_sentiment`. -/
def positive_words : List String :=
  ["ভালো", "খুশি", "আনন্দ", "ধন্যবাদ", "থ্যাংকস", "সুপার", "এক্সিলেন্ট", "বিউটিফুল"]

/-- The negative keyword list of `analyze_sentiment`. -/
def negative_words : List String :=
  ["খারাপ", "বাজে", "দুঃখ", "কষ্ট", "প্রবলেম", "সমস্যা", "বিরক্ত", "অসুস্থ"]

/-- `sum(1 for word in ws if word in text_lower)`. -/
def keywordCount (ws : List String) (text_lower : String) : Nat :=
  (ws.filter (fun w => strIn w text_lower)).length

/-- `AIEngine.analyze_sentiment`. -/
def analyze_sentiment (text : String) : String :=
  let text_lower := pyLower text
  let pos_count := keywordCount positive_words text_lower
  let neg_count := keywordCount negative_words text_lower
  if pos_count > neg_count then "positive"
  else if neg_count > pos_count then "negative"
  else "neutral"

/-- The greeting keyword list of `detect_intent`. -/
def greeting_words : List String := ["হ্যালো", "হাই", "সালাম", "কেমন", "খবর"]

/-- The question keyword list of `detect_intent`. -/
def question_words : List String := ["কি", "কেন", "কিভাবে", "কখন", "কোথায়", "কে"]

/-- The request keyword list of `detect_intent`. -/
def request_words : List String := ["চাই", "দাও", "করো", "করুন", "সাহায্য", "হেল্প"]

/-- The complaint keyword list of `detect_intent`. -/
def complaint_words : List String := ["সমস্যা", "প্রবলেম", "ভুল", "এরর", "কাজ করে না"]

/-- `any(word in text_lower for word in ws)`. -/
def anyKeyword (ws : List String) (text_lower : String) : Bool :=
  ws.any (fun w => strIn w text_lower)

/-- `AIEngine.detect_intent`: first matching category wins in the order
greeting, question, request, complaint, general. -/
def detect_intent (text : String) : String :=
  let text_lower := pyLower text
  if anyKeyword greeting_words text_lower then "greeting"
  else if anyKeyword question_words text_lower then "question"
  else if anyKeyword request_words text_lower then "request"
  else if anyKeyword complaint_words text_lower then "complaint"
  else "general"

/-- The fixed fallback response list of `get_fallback_response`. -/
def fallbacks : List String := [
  "দুঃখিত, বুঝতে পারিনি। আবার বলুন। 🤔",
  "কী বললেন? একটু ক্লিয়ার বলবেন? 💭",
  "একটু অন্যভাবে বলুন দেখি। ✨",
  "আমি এখনো শিখছি, সহজ ভাষায় বলুন। 📚",
  "একটু বিশদভাবে বলুন কী চান। 💫"]

/-- `AIEngine.get_fallback_response`: a random pick from `fallbacks`. -/
def get_fallback_response (rand : Nat) : String := randomChoice fallbacks rand

/-- `AIEngine.generate_contextual_response`.  Takes the raw message text of the
context (the source re-reads `context.get("message_text", "")`, not the
lower-cased local), the learning dictionary and the random index used for
template selection. -/
def generate_contextual_response (templates : ResponseTemplates)
    (message : String) (learning : LearningData) (rand : Nat) : String :=
  let sentiment := analyze_sentiment message
  let intent := detect_intent message
  let responses :=
    if intent = "greeting" then templates "greetings"
    else if intent = "question" then templates "questions"
    else if intent = "request" then templates "requests"
    else if intent = "complaint" then templates "complaints"
    else templates "general"
  let response :=
    if responses.isEmpty then "জি বলুন, আমি শুনছি। 😊" else randomChoice responses rand
  let response :=
    match learning.context_data.user_name with
    | some n => if n ≠ "" then pyReplace response "\x7bname\x7d" n else response
    | none => response
  if sentiment = "positive" then response ++ " 😊"
  else if sentiment = "negative" then response ++ " 😔"
  else response ++ " 💫"

/-- `AIEngine.generate_response`: the decision cascade.  `learning` is the
learning dictionary `get_learning_data` would return for the context's bot,
`language` is `context.get("language", "banglish")`, `exc` is the exception
oracle for the enclosing `try` (`exc = true` means some step of the cascade
raised, so control reaches the `except` branch and the fallback is returned)
and `rand` feeds the random choices. -/
def generate_response (templates : ResponseTemplates) (learning : LearningData)
    (language : String) (message_text : String) (exc : Bool) (rand : Nat) : String :=
  if exc then get_fallback_response rand
  else
    let message := pyLower (pyStrip message_text)
    match check_predefined_responses message with
    | some predefined => LanguageManager.translate predefined "banglish"
    | none =>
      match check_learned_patterns learning message with
      | some learned => learned
      | none =>
        let response := generate_contextual_response templates message_text learning rand
        if language ≠ "banglish" then LanguageManager.translate response language
        else response

/-- `AIEngine.update_patterns`: increment the inbound frequency of every token
of length above 2 of the lower-cased user message, likewise the outbound map
from the bot response, then recompute the accuracy scalar as
`min(1.0, total_patterns / 1000)` whenever `total_patterns > 0`. -/
def update_patterns (learning : LearningData) (user_message bot_response : String) :
    LearningData :=
  let up := (pySplit (pyLower user_message)).foldl
    (fun m word => if word.length > 2 then dictSet m word (dictGetD m word 0 + 1) else m)
    learning.user_patterns
  let rp := (pySplit (pyLower bot_response)).foldl
    (fun m word => if word.length > 2 then dictSet m word (dictGetD m word 0 + 1) else m)
    learning.response_patterns
  let total_patterns := up.length + rp.length
  let accuracy :=
    if total_patterns > 0 then min 1 ((total_patterns : ℚ) / 1000) else learning.accuracy
  ⟨up, rp, learning.context_data, accuracy⟩

end AIEngine

/-! ### Persistence model (`database/models.py`, `database/crud.py`)

Rows are modelled as records holding the fields the embedded code reads or
writes; tables are lists in storage order (SQLAlchemy's unordered `.first()`
returns the first row in query order, which for these queries is storage
order). -/

/-- A `Bot` row (the spec's `TenantBot`; named `TenantBot` here because `Bot`
is taken by Mathlib).  `profile_clone` is
`bot.settings.get("profile_clone", True)`; `trial_expiry` is `None` for
non-trial plans. -/
structure TenantBot where
  id : Nat
  status : String
  plan_type : String
  trial_expiry : Option Nat
  profile_clone : Bool
  last_active : Nat
  total_messages : Nat
deriving DecidableEq

/-- A `Subscription` row (fields consumed by `get_active_subscription`). -/
structure Subscription where
  bot_id : Nat
  status : String
  end_date : Nat
deriving DecidableEq

/-- A `Learning` row. -/
structure Learning where
  bot_id : Nat
  user_patterns : FreqMap
  response_patterns : FreqMap
  context_data : ContextData
  accuracy_score : ℚ
  training_count : Nat
  last_trained : Option Nat
deriving DecidableEq

/-- A `Conversation` row (fields written by `create_conversation` that the
claims mention). -/
structure Conversation where
  bot_id : Nat
  from_user : Nat
  to_user : Nat
  message_text : String
  bot_response : String
  is_ghost_mode : Bool
deriving DecidableEq

/-- The database state. -/
structure DB where
  bots : List TenantBot
  subscriptions : List Subscription
  learnings : List Learning
  conversations : List Conversation
deriving DecidableEq

namespace crud

/-- `crud.get_bot`: first row with the identifier. -/
def get_bot (db : DB) (bot_id : Nat) : Option TenantBot :=
  db.bots.find? (fun b => b.id == bot_id)

/-- `crud.get_active_subscription`: the filter keeps rows of the bot with
status `verified` whose `end_date` lies strictly in the future; `.first()`
takes the first such row in storage order (the query has no `order_by`). -/
def get_active_subscription (db : DB) (bot_id : Nat) (now : Nat) : Option Subscription :=
  ((db.subscriptions.filter
    (fun s => s.bot_id == bot_id && s.status == "verified" && decide (now < s.end_date)))).head?

/-- `crud.get_learning`: first row for the bot. -/
def get_learning (db : DB) (bot_id : Nat) : Option Learning :=
  db.learnings.find? (fun l => l.bot_id == bot_id)

/-- `crud.get_active_bots`: all rows with status `active`, in storage order. -/
def get_active_bots (db : DB) : List TenantBot :=
  db.bots.filter (fun b => b.status == "active")

end crud

/-- `AIEngine.get_learning_data` on a cold cache: build the learning dictionary
from the bot's `Learning` row, or the empty dictionary when the row is
absent. -/
def AIEngine.get_learning_data (l : Option Learning) : LearningData :=
  match l with
  | some lr => ⟨lr.user_patterns, lr.response_patterns, lr.context_data, lr.accuracy_score⟩
  | none => ⟨[], [], ContextData.empty, 0⟩

namespace GhostBot

/-- `GhostBot.update_learning_patterns`: increment the inbound frequency of
every token of length above 3 of the lower-cased user message (the source
writes `if word not in ...: = 1 else: += 1`), likewise the outbound map from
the bot response, stamp the context blob and bump the training counter.  The
accuracy scalar is not touched. -/
def update_learning_patterns (learning : Learning)
    (user_message bot_response : String) (now : Nat) : Learning :=
  let up := (pySplit (pyLower user_message)).foldl
    (fun m word =>
      if word.length > 3 then
        if ¬ dictContains m word then dictSet m word 1
        else dictSet m word (dictGetD m word 0 + 1)
      else m)
    learning.user_patterns
  let rp := (pySplit (pyLower bot_response)).foldl
    (fun m word =>
      if word.length > 3 then
        if ¬ dictContains m word then dictSet m word 1
        else dictSet m word (dictGetD m word 0 + 1)
      else m)
    learning.response_patterns
  let cd : ContextData :=
    ⟨learning.context_data.user_name, some now, learning.context_data.total_interactions + 1⟩
  { learning with
      user_patterns := up
      response_patterns := rp
      context_data := cd
      training_count := learning.training_count + 1
      last_trained := some now }

/-- `bot.trial_expiry < datetime.now()` inside `handle_incoming_message`.  For
a trial bot the column is set; if it were `NULL` the comparison would raise
`TypeError`, which the surrounding `try` swallows, so the message is likewise
dropped — hence `none` maps to `true`. -/
def trialExpired (trial_expiry : Option Nat) (now : Nat) : Bool :=
  match trial_expiry with
  | some t => t < now
  | none => true

/-- Replace the first `Learning` row of the bot (the ORM object mutated in
place by `update_learning_patterns` is the row `get_learning` found). -/
def setLearning : List Learning → Nat → Learning → List Learning
  | [], _, _ => []
  | l :: ls, bot_id, l' =>
    if l.bot_id == bot_id then l' :: ls else l :: setLearning ls bot_id l'

/-- Apply `bot.last_active = datetime.now(); bot.total_messages += 1` to the
first `Bot` row with the identifier (the object `get_bot` found). -/
def touchBot : List TenantBot → Nat → Nat → List TenantBot
  | [], _, _ => []
  | b :: bs, bot_id, now =>
    if b.id == bot_id then
      { b with last_active := now, total_messages := b.total_messages + 1 } :: bs
    else b :: touchBot bs bot_id now

/-- The observable outcome of `GhostBot.handle_incoming_message`: the texts
sent to the chat, whether the impersonation path was used, the database after
the handler, and whether a learning update ran. -/
structure HandleResult where
  replies : List String
  sent_as_admin : Bool
  db : DB
  learning_updated : Bool
deriving DecidableEq

/-- `GhostBot.handle_incoming_message` for an inbound private message.
Parameters mirror the worker state (`bot_id`, `admin_chat_id`, the bot's own
user id, `is_cloning`) and the message (`from_user`, `message_text`); `now` is
the current time, `rand` the random seed for the engine, `exc` the engine's
exception oracle.  The context passed to the engine carries no `language` key,
so the engine runs with its default `banglish`. -/
def handle_incoming_message (templates : ResponseTemplates) (db : DB)
    (bot_id admin_chat_id self_id : Nat) (is_cloning : Bool)
    (from_user : Nat) (message_text : String) (now rand : Nat) (exc : Bool) :
    HandleResult :=
  if from_user = admin_chat_id ∨ from_user = self_id then ⟨[], false, db, false⟩
  else
    match crud.get_bot db bot_id with
    | none => ⟨[], false, db, false⟩
    | some bot =>
      if bot.status ≠ "active" then ⟨[], false, db, false⟩
      else if (crud.get_active_subscription db bot_id now).isNone ∧
          bot.plan_type = "trial" ∧ trialExpired bot.trial_expiry now then
        ⟨[], false, db, false⟩
      else
        let learning := crud.get_learning db bot_id
        let ai_response := AIEngine.generate_response templates
          (AIEngine.get_learning_data learning) "banglish" message_text exc rand
        let sent_admin := bot.profile_clone && is_cloning
        let db1 : DB := { db with conversations := db.conversations ++
          [⟨bot_id, from_user, admin_chat_id, message_text, ai_response, true⟩] }
        let db2 : DB :=
          match learning with
          | some l =>
            let l' := update_learning_patterns l message_text ai_response now
            { db1 with learnings := setLearning db1.learnings bot_id l' }
          | none => db1
        let db3 : DB := { db2 with bots := touchBot db2.bots bot_id now }
        ⟨[ai_response], sent_admin, db3, learning.isSome⟩

end GhostBot

/-! ### Runtime Manager (`ghost_manager.py`) -/

namespace GhostBotManager

/-- `GhostBotManager.start_bot` on the live-worker registry (the keys of
`self.active_bots`, in insertion order): already-running tenants are left
alone, otherwise the tenant is appended. -/
def start_bot (live : List Nat) (bot_id : Nat) : List Nat :=
  if bot_id ∈ live then live else live ++ [bot_id]

/-- `GhostBotManager.stop_bot`: delete the tenant's entry if present. -/
def stop_bot (live : List Nat) (bot_id : Nat) : List Nat :=
  if bot_id ∈ live then live.erase bot_id else live

/-- One reconciliation pass of `GhostBotManager.monitor_bots` that completes
without error: stop every live worker whose tenant left the database-active
set (iterating over a snapshot of the registry keys), then start every
database-active tenant that is not live. -/
def monitor_pass (live : List Nat) (db : DB) : List Nat :=
  let db_active_ids := (crud.get_active_bots db).map (fun b => b.id)
  let after_stop := live.foldl
    (fun l bot_id => if bot_id ∈ db_active_ids then l else stop_bot l bot_id) live
  db_active_ids.foldl
    (fun l bot_id => if bot_id ∈ l then l else start_bot l bot_id) after_stop

end GhostBotManager

/-! ### Claim-side definitions

Definitions written from the claims' words (not from the source), used to
compare the source behaviour against what the claims assert. -/

/-- The claim's notion for C4: the most frequent outbound token among those
with frequency above `min_occ` (insertion order breaks ties; in the
counterexample below the frequencies are distinct, so the tie-break is
irrelevant). -/
def mostFrequentOutbound (rp : FreqMap) (min_occ : Nat) : Option String :=
  ((rp.filter (fun kv => kv.2 > min_occ)).foldl
    (fun acc kv =>
      match acc with
      | none => some kv
      | some best => if kv.2 > best.2 then some kv else acc)
    none).map (fun kv => kv.1)

/-- The amended C4 stage, written from the amended claim's words: tokenize the
lower-cased whitespace-split message into its set of distinct tokens, score
every inbound-map token present in that set as `frequency / distinct-token
count`, take the maximal score, and when it exceeds 0.3 return the
acknowledgment referencing the first outbound token in store order with
frequency above 5 (falling through when no token qualifies or either map is
empty). -/
def learnedStageAmended (learning : LearningData) (message : String) : Option String :=
  if learning.user_patterns.isEmpty || learning.response_patterns.isEmpty then none
  else
    let message_words := (pySplit (pyLower message)).dedup
    let best := (learning.user_patterns.filter (fun p => p.1 ∈ message_words)).foldl
      (fun x p => max x ((p.2 : ℚ) / (message_words.length : ℚ))) 0
    if best > (3 : ℚ) / 10 then
      (learning.response_patterns.find? (fun kv => kv.2 > 5)).map
        (fun kv => AIEngine.ackOf kv.1)
    else none

/-- The predicate of `get_active_subscription`'s filter, named for use in
theorem statements: a verified subscription row of the bot that has not
expired at `now`. -/
def subMatches (bot_id now : Nat) (s : Subscription) : Bool :=
  s.bot_id == bot_id && s.status == "verified" && decide (now < s.end_date)

/-- The gate condition under which `handle_incoming_message` drops the message
with no observable effect, read off the handler's early returns: the sender is
the admin or the bot itself, the bot row is missing or not `active`, or there
is no verified unexpired subscription while the plan is `trial` and the trial
expiry has passed. -/
def dropCondition (db : DB) (bot_id admin_chat_id self_id sender now : Nat) : Bool :=
  sender == admin_chat_id || sender == self_id ||
  (match crud.get_bot db bot_id with
   | none => true
   | some bot =>
     bot.status != "active" ||
     ((crud.get_active_subscription db bot_id now).isNone &&
       bot.plan_type == "trial" && GhostBot.trialExpired bot.trial_expiry now))

/-- One pattern-store update operation of the core (C5 ranges over arbitrary
sequences of these): the engine's `update_patterns` or the worker's
`update_learning_patterns`. -/
inductive PatternOp where
  | engine (user_message bot_response : String)
  | worker (user_message bot_response : String) (now : Nat)

/-- Apply one update operation to a tenant's `Learning` row.  The engine case
runs `AIEngine.update_patterns` on the row's dictionaries (the cached learning
dictionary is built from, and flushed back to, exactly these fields) and
stores the result back; the worker case is `update_learning_patterns`. -/
def applyPatternOp (l : Learning) : PatternOp → Learning
  | .engine u r =>
    let d := AIEngine.update_patterns ⟨l.user_patterns, l.response_patterns,
      l.context_data, l.accuracy_score⟩ u r
    { l with user_patterns := d.user_patterns, response_patterns := d.response_patterns,
             accuracy_score := d.accuracy }
  | .worker u r now => GhostBot.update_learning_patterns l u r now

/-- The combined vocabulary size `len(user_patterns) + len(response_patterns)`
of a `Learning` row. -/
def vocabSize (l : Learning) : Nat :=
  l.user_patterns.length + l.response_patterns.length

/-- The pattern store reached after the first `k` operations of `ops`. -/
def storeAt (l : Learning) (ops : List PatternOp) (k : Nat) : Learning :=
  (ops.take k).foldl applyPatternOp l

/-! ### Shared helper lemmas -/

/-- A string is empty exactly when its character list is. -/
theorem str_data_nil_iff (s : String) : s.data = [] ↔ s = "" := by
  constructor
  · intro h
    cases s with
    | mk data =>
      cases h
      rfl
  · intro h
    subst h
    rfl

/-- Appending a non-empty string on the right yields a non-empty string. -/
theorem append_ne_empty_right (a b : String) (hb : b ≠ "") : a ++ b ≠ "" := by
  intro h
  rw [← str_data_nil_iff] at h
  rw [String.data_append] at h
  rcases List.append_eq_nil.mp h with ⟨-, h2⟩
  exact hb ((str_data_nil_iff b).mp h2)

/-- `randomChoice` of a non-empty list is an element of the list. -/
theorem randomChoice_mem (l : List String) (r : Nat) (h : l ≠ []) :
    randomChoice l r ∈ l := by
  have hlen : 0 < l.length := List.length_pos.mpr h
  have hlt : r % l.length < l.length := Nat.mod_lt _ hlen
  unfold randomChoice
  rw [List.getD_eq_getElem l "" hlt]
  exact List.getElem_mem hlt

/-- `pySplitChars` never emits an empty token. -/
theorem pySplitChars_ne_nil : ∀ (l acc : List Char), [] ∉ pySplitChars acc l := by
  intro l
  induction l with
  | nil =>
    intro acc
    unfold pySplitChars
    by_cases h : acc = []
    · rw [if_pos h]
      exact List.not_mem_nil []
    · rw [if_neg h]
      simp only [List.mem_singleton]
      exact fun e => h (by simpa using (congrArg List.reverse e).symm)
  | cons c cs ih =>
    intro acc
    unfold pySplitChars
    by_cases hsp : isSpaceChar c <;> simp only [hsp]
    · by_cases hacc : acc = [] <;> simp only [hacc, if_true, if_false, ite_true, ite_false]
      · exact ih []
      · intro hmem
        rcases List.mem_cons.mp hmem with h1 | h2
        · exact hacc (by simpa using congrArg List.reverse h1.symm)
        · exact ih [] h2
    · exact ih (c :: acc)

/-- Every token produced by `pySplit` is a non-empty string. -/
theorem mem_pySplit_ne_empty (s : String) (w : String) (hw : w ∈ pySplit s) :
    w ≠ "" := by
  unfold pySplit at hw
  rcases List.mem_map.mp hw with ⟨t, ht, rfl⟩
  intro h
  have ht0 : t = [] := by simpa using congrArg String.data h
  exact pySplitChars_ne_nil s.data [] (ht0 ▸ ht)

/-- Reading a key just written (Python `d[k] = v` then `d[k]`). -/
theorem dictGetD_dictSet_self (m : FreqMap) (k : String) (v d : Nat) :
    dictGetD (dictSet m k v) k d = v := by
  induction m with
  | nil => simp [dictSet, dictGetD]
  | cons p ps ih =>
    by_cases h : p.1 == k
    · simp [dictSet, h, dictGetD]
    · simp only [dictSet, h, if_false, Bool.false_eq_true, ite_false]
      simp only [dictGetD, List.find?] at ih ⊢
      simp [h, ih]

/-- Writing one key leaves every other key's value unchanged. -/
theorem dictGetD_dictSet_ne (m : FreqMap) (k k' : String) (v d : Nat) (hne : k' ≠ k) :
    dictGetD (dictSet m k v) k' d = dictGetD m k' d := by
  have hkk : (k == k') = false := by
    simp only [beq_eq_false_iff_ne, ne_eq]
    exact fun e => hne e.symm
  induction m with
  | nil => simp [dictSet, dictGetD, List.find?, hkk]
  | cons p ps ih =>
    by_cases h : p.1 == k
    · have hpk : p.1 = k := by simpa using h
      have hp2 : (p.1 == k') = false := by
        simp only [beq_eq_false_iff_ne, ne_eq, hpk]
        exact fun e => hne e.symm
      simp [dictSet, h, dictGetD, List.find?, hkk, hp2]
    · simp only [dictSet, h, Bool.false_eq_true, ite_false]
      by_cases h2 : p.1 == k'
      · simp [dictGetD, List.find?, h2]
      · simp only [dictGetD, List.find?, h2] at ih ⊢
        simpa [h2] using ih

/-- A missing key reads as the default. -/
theorem dictGetD_of_not_contains (m : FreqMap) (k : String) (d : Nat)
    (h : ¬ dictContains m k) : dictGetD m k d = d := by
  unfold dictContains at h
  unfold dictGetD
  cases hf : m.find? (fun p => p.1 == k) with
  | none => rfl
  | some p => rw [hf] at h; simp at h

/-- `dictSet` grows the map by at most the new binding. -/
theorem length_dictSet (m : FreqMap) (k : String) (v : Nat) :
    m.length ≤ (dictSet m k v).length ∧ (dictSet m k v).length ≤ m.length + 1 := by
  induction m with
  | nil => simp [dictSet]
  | cons p ps ih =>
    by_cases h : p.1 == k <;> simp [dictSet, h] <;> omega

/-- The if-chain of `detect_intent`, characterized for arbitrary Boolean
conditions (finite case analysis). -/
theorem intentChain (g q r c : Bool) :
    ((if g then "greeting" else if q then "question" else if r then "request"
      else if c then "complaint" else "general") = "greeting" ↔ g = true) ∧
    ((if g then "greeting" else if q then "question" else if r then "request"
      else if c then "complaint" else "general") = "question" ↔ (g = false ∧ q = true)) ∧
    ((if g then "greeting" else if q then "question" else if r then "request"
      else if c then "complaint" else "general") = "request" ↔
      (g = false ∧ q = false ∧ r = true)) ∧
    ((if g then "greeting" else if q then "question" else if r then "request"
      else if c then "complaint" else "general") = "complaint" ↔
      (g = false ∧ q = false ∧ r = false ∧ c = true)) ∧
    ((if g then "greeting" else if q then "question" else if r then "request"
      else if c then "complaint" else "general") = "general" ↔
      (g = false ∧ q = false ∧ r = false ∧ c = false)) := by
  cases g <;> cases q <;> cases r <;> cases c <;> decide

/-- The if-chain of `analyze_sentiment`, characterized for arbitrary counts. -/
theorem sentimentChain (p n : Nat) :
    ((if p > n then "positive" else if n > p then "negative" else "neutral") =
      "positive" ↔ p > n) ∧
    ((if p > n then "positive" else if n > p then "negative" else "neutral") =
      "negative" ↔ n > p) ∧
    ((if p > n then "positive" else if n > p then "negative" else "neutral") =
      "neutral" ↔ p = n) := by
  by_cases h1 : p > n
  · rw [if_pos h1]
    exact ⟨⟨fun _ => h1, fun _ => rfl⟩,
      ⟨fun hx => absurd hx (by decide), fun hx => absurd h1 (by omega)⟩,
      ⟨fun hx => absurd hx (by decide), fun hx => absurd h1 (by omega)⟩⟩
  · rw [if_neg h1]
    by_cases h2 : n > p
    · rw [if_pos h2]
      exact ⟨⟨fun hx => absurd hx (by decide), fun hx => absurd hx h1⟩,
        ⟨fun _ => h2, fun _ => rfl⟩,
        ⟨fun hx => absurd hx (by decide), fun hx => absurd h2 (by omega)⟩⟩
    · rw [if_neg h2]
      exact ⟨⟨fun hx => absurd hx (by decide), fun hx => absurd hx h1⟩,
        ⟨fun hx => absurd hx (by decide), fun hx => absurd hx h2⟩,
        ⟨fun _ => by omega, fun _ => rfl⟩⟩

/-- C8: intent classification is deterministic and first-match-wins in the
fixed priority order greeting, question, request, complaint, general (a
message matching several categories' keywords is classified as the earliest
matching one), and sentiment classification returns positive (negative) only
when the positive (negative) keyword-match count strictly exceeds the other,
ties being neutral. -/
theorem C8_intent_priority_sentiment_majority (text : String) :
    (AIEngine.detect_intent text = "greeting" ↔
      AIEngine.anyKeyword AIEngine.greeting_words (pyLower text) = true) ∧
    (AIEngine.detect_intent text = "question" ↔
      (AIEngine.anyKeyword AIEngine.greeting_words (pyLower text) = false ∧
       AIEngine.anyKeyword AIEngine.question_words (pyLower text) = true)) ∧
    (AIEngine.detect_intent text = "request" ↔
      (AIEngine.anyKeyword AIEngine.greeting_words (pyLower text) = false ∧
       AIEngine.anyKeyword AIEngine.question_words (pyLower text) = false ∧
       AIEngine.anyKeyword AIEngine.request_words (pyLower text) = true)) ∧
    (AIEngine.detect_intent text = "complaint" ↔
      (AIEngine.anyKeyword AIEngine.greeting_words (pyLower text) = false ∧
       AIEngine.anyKeyword AIEngine.question_words (pyLower text) = false ∧
       AIEngine.anyKeyword AIEngine.request_words (pyLower text) = false ∧
       AIEngine.anyKeyword AIEngine.complaint_words (pyLower text) = true)) ∧
    (AIEngine.detect_intent text = "general" ↔
      (AIEngine.anyKeyword AIEngine.greeting_words (pyLower text) = false ∧
       AIEngine.anyKeyword AIEngine.question_words (pyLower text) = false ∧
       AIEngine.anyKeyword AIEngine.request_words (pyLower text) = false ∧
       AIEngine.anyKeyword AIEngine.complaint_words (pyLower text) = false)) ∧
    (AIEngine.analyze_sentiment text = "positive" ↔
      AIEngine.keywordCount AIEngine.positive_words (pyLower text) >
        AIEngine.keywordCount AIEngine.negative_words (pyLower text)) ∧
    (AIEngine.analyze_sentiment text = "negative" ↔
      AIEngine.keywordCount AIEngine.negative_words (pyLower text) >
        AIEngine.keywordCount AIEngine.positive_words (pyLower text)) ∧
    (AIEngine.analyze_sentiment text = "neutral" ↔
      AIEngine.keywordCount AIEngine.positive_words (pyLower text) =
        AIEngine.keywordCount AIEngine.negative_words (pyLower text)) := by
  have hi := intentChain
    (AIEngine.anyKeyword AIEngine.greeting_words (pyLower text))
    (AIEngine.anyKeyword AIEngine.question_words (pyLower text))
    (AIEngine.anyKeyword AIEngine.request_words (pyLower text))
    (AIEngine.anyKeyword AIEngine.complaint_words (pyLower text))
  have hs := sentimentChain
    (AIEngine.keywordCount AIEngine.positive_words (pyLower text))
    (AIEngine.keywordCount AIEngine.negative_words (pyLower text))
  exact ⟨hi.1, hi.2.1, hi.2.2.1, hi.2.2.2.1, hi.2.2.2.2, hs.1, hs.2.1, hs.2.2⟩

/-- C7: when the stripped lower-cased message matches the predefined
greeting/help table, `generate_response` returns the matched fixed string
verbatim, independent of templates, learning state and random seed (so two
runs on the same input agree), and the result is one of the table's entries
(or the fixed help reply). -/
theorem C7_predefined_verbatim_deterministic
    (t1 t2 : ResponseTemplates) (l1 l2 : LearningData) (msg r : String) (r1 r2 : Nat)
    (h : AIEngine.check_predefined_responses (pyLower (pyStrip msg)) = some r) :
    AIEngine.generate_response t1 l1 "banglish" msg false r1 = r ∧
    AIEngine.generate_response t2 l2 "banglish" msg false r2 =
      AIEngine.generate_response t1 l1 "banglish" msg false r1 ∧
    (r ∈ AIEngine.greetings.map Prod.snd ∨ r = AIEngine.helpResponse) := by
  have key : ∀ (t : ResponseTemplates) (l : LearningData) (rr : Nat),
      AIEngine.generate_response t l "banglish" msg false rr = r := by
    intro t l rr
    unfold AIEngine.generate_response
    simp only [Bool.false_eq_true, if_false, h]
    rfl
  have hmem : r ∈ AIEngine.greetings.map Prod.snd ∨ r = AIEngine.helpResponse := by
    unfold AIEngine.check_predefined_responses at h
    cases hf : AIEngine.greetings.find?
        (fun kv => strIn kv.1 (pyLower (pyLower (pyStrip msg)))) with
    | some kv =>
      rw [hf] at h
      left
      have hkv : kv ∈ AIEngine.greetings := List.mem_of_find?_eq_some hf
      have : r = kv.2 := by
        simpa using h.symm
      rw [this]
      exact List.mem_map.mpr ⟨kv, hkv, rfl⟩
    | none =>
      rw [hf] at h
      cases hf2 : AIEngine.help_keywords.find?
          (fun k => strIn k (pyLower (pyLower (pyStrip msg)))) with
      | some k =>
        rw [hf2] at h
        right
        simpa using h.symm
      | none =>
        rw [hf2] at h
        simp at h
  exact ⟨key t1 l1 r1, (key t2 l2 r2).trans (key t1 l1 r1).symm, hmem⟩

/-- Witness for C7 at the concrete message `"Hello!"`. -/
theorem C7_witness :
    AIEngine.check_predefined_responses (pyLower (pyStrip "Hello!")) =
      some "হ্যালো! কেমন আছেন? 😊" ∧
    AIEngine.generate_response (fun _ => []) ⟨[], [], ContextData.empty, 0⟩
      "banglish" "Hello!" false 0 = "হ্যালো! কেমন আছেন? 😊" :=
  ⟨by decide,
   (C7_predefined_verbatim_deterministic (fun _ => []) (fun _ => [])
     ⟨[], [], ContextData.empty, 0⟩ ⟨[], [], ContextData.empty, 0⟩
     "Hello!" "হ্যালো! কেমন আছেন? 😊" 0 0 (by decide)).1⟩

/-- `stop_bot` is plain list erasure (erasing an absent element is the
identity). -/
theorem stop_bot_eq_erase (l : List Nat) (b : Nat) :
    GhostBotManager.stop_bot l b = l.erase b := by
  unfold GhostBotManager.stop_bot
  by_cases h : b ∈ l
  · rw [if_pos h]
  · rw [if_neg h, List.erase_of_not_mem h]

/-- Element count after the stop phase of a reconciliation pass: elements in
the database-active set keep their count, all others lose one occurrence per
occurrence in the iterated snapshot. -/
theorem stopFold_count (dbA : List Nat) (suf : List Nat) :
    ∀ (acc : List Nat) (x : Nat),
      (suf.foldl (fun l bot_id =>
        if bot_id ∈ dbA then l else GhostBotManager.stop_bot l bot_id) acc).count x =
      acc.count x - (if x ∈ dbA then 0 else suf.count x) := by
  induction suf with
  | nil =>
    intro acc x
    simp
  | cons b suf ih =>
    intro acc x
    simp only [List.foldl_cons]
    rw [ih]
    by_cases hb : b ∈ dbA
    · rw [if_pos hb]
      by_cases hx : x ∈ dbA
      · simp [hx]
      · have hxb : x ≠ b := fun e => hx (e ▸ hb)
        have hbx : ¬ (b = x) := fun e => hxb e.symm
        rw [if_neg hx, if_neg hx, List.count_cons]
        simp [hbx]
    · rw [if_neg hb, stop_bot_eq_erase]
      by_cases hx : x ∈ dbA
      · have hxb : x ≠ b := fun e => hb (e ▸ hx)
        rw [if_pos hx, if_pos hx, List.count_erase_of_ne hxb]
      · rw [if_neg hx, if_neg hx, List.count_cons, List.count_erase]
        by_cases hxb : x = b
        · simp [hxb]
          omega
        · simp [hxb, fun e => hxb (by simpa using e)]
          omega

/-- Membership after the start phase of a reconciliation pass. -/
theorem startFold_mem (ids : List Nat) :
    ∀ (acc : List Nat) (x : Nat),
      x ∈ ids.foldl (fun l bot_id =>
        if bot_id ∈ l then l else GhostBotManager.start_bot l bot_id) acc ↔
      x ∈ acc ∨ x ∈ ids := by
  induction ids with
  | nil =>
    intro acc x
    simp
  | cons b ids ih =>
    intro acc x
    simp only [List.foldl_cons]
    rw [ih]
    unfold GhostBotManager.start_bot
    by_cases hb : b ∈ acc
    · rw [if_pos hb]
      constructor
      · rintro (h | h)
        · exact Or.inl h
        · exact Or.inr (List.mem_cons_of_mem b h)
      · rintro (h | h)
        · exact Or.inl h
        · rcases List.mem_cons.mp h with rfl | h2
          · exact Or.inl hb
          · exact Or.inr h2
    · rw [if_neg hb, if_neg hb]
      constructor
      · rintro (h | h)
        · rcases List.mem_append.mp h with h1 | h1
          · exact Or.inl h1
          · exact Or.inr (by simpa using Or.inl (List.mem_singleton.mp h1))
        · exact Or.inr (List.mem_cons_of_mem b h)
      · rintro (h | h)
        · exact Or.inl (List.mem_append.mpr (Or.inl h))
        · rcases List.mem_cons.mp h with rfl | h2
          · exact Or.inl (List.mem_append.mpr (Or.inr (List.mem_singleton.mpr rfl)))
          · exact Or.inr h2

/-- C3: after a reconciliation pass that completes without error, the live
worker set holds exactly the tenants whose `TenantBot` row has status
`active`; and starting (or stopping) the same tenant twice in a row is a
no-op the second time. -/
theorem C3_reconciliation_sync_and_idempotence
    (live : List Nat) (db : DB) (b : Nat) (hnd : live.Nodup) :
    (∀ x, x ∈ GhostBotManager.monitor_pass live db ↔
      ∃ bot ∈ db.bots, bot.status = "active" ∧ bot.id = x) ∧
    GhostBotManager.start_bot (GhostBotManager.start_bot live b) b =
      GhostBotManager.start_bot live b ∧
    GhostBotManager.stop_bot (GhostBotManager.stop_bot live b) b =
      GhostBotManager.stop_bot live b := by
  refine ⟨?_, ?_, ?_⟩
  · intro x
    unfold GhostBotManager.monitor_pass
    rw [startFold_mem]
    have hstop := stopFold_count ((crud.get_active_bots db).map (fun b => b.id)) live live x
    have hdbA : x ∈ (crud.get_active_bots db).map (fun b => b.id) ↔
        ∃ bot ∈ db.bots, bot.status = "active" ∧ bot.id = x := by
      unfold crud.get_active_bots
      simp only [List.mem_map, List.mem_filter]
      constructor
      · rintro ⟨bot, ⟨hmem, hst⟩, rfl⟩
        exact ⟨bot, hmem, by simpa using hst, rfl⟩
      · rintro ⟨bot, hmem, hst, rfl⟩
        exact ⟨bot, ⟨hmem, by simpa using hst⟩, rfl⟩
    rw [← hdbA]
    by_cases hx : x ∈ (crud.get_active_bots db).map (fun b => b.id)
    · simp [hx]
    · rw [if_neg hx] at hstop
      have : (live.foldl (fun l bot_id =>
          if bot_id ∈ (crud.get_active_bots db).map (fun b => b.id) then l
          else GhostBotManager.stop_bot l bot_id) live).count x = 0 := by
        rw [hstop]; omega
      have hnot : x ∉ live.foldl (fun l bot_id =>
          if bot_id ∈ (crud.get_active_bots db).map (fun b => b.id) then l
          else GhostBotManager.stop_bot l bot_id) live := by
        intro hmem
        have := List.count_pos_iff.mpr hmem
        omega
      exact ⟨fun h => h.elim (fun hm => absurd hm hnot) (fun hm => absurd hm hx),
        fun h => absurd h hx⟩
  · unfold GhostBotManager.start_bot
    by_cases hb : b ∈ live
    · rw [if_pos hb, if_pos hb]
    · rw [if_neg hb, if_pos (List.mem_append.mpr (Or.inr (List.mem_singleton.mpr rfl)))]
  · unfold GhostBotManager.stop_bot
    by_cases hb : b ∈ live
    · rw [if_pos hb]
      have : b ∉ live.erase b := fun hmem =>
        ((List.Nodup.mem_erase_iff hnd).mp hmem).1 rfl
      rw [if_neg this]
    · rw [if_neg hb, if_neg hb]

/-- Witness for C3 at a concrete registry and database. -/
theorem C3_witness :
    ([3] : List Nat).Nodup ∧
    ((∀ x, x ∈ GhostBotManager.monitor_pass [3]
        ⟨[⟨1, "active", "premium", none, true, 0, 0⟩,
          ⟨2, "pending", "trial", some 5, true, 0, 0⟩], [], [], []⟩ ↔
      ∃ bot ∈ (⟨[⟨1, "active", "premium", none, true, 0, 0⟩,
          ⟨2, "pending", "trial", some 5, true, 0, 0⟩], [], [], []⟩ : DB).bots,
        bot.status = "active" ∧ bot.id = x) ∧
    GhostBotManager.start_bot (GhostBotManager.start_bot [3] 9) 9 =
      GhostBotManager.start_bot [3] 9 ∧
    GhostBotManager.stop_bot (GhostBotManager.stop_bot [3] 9) 9 =
      GhostBotManager.stop_bot [3] 9) :=
  ⟨by decide,
   C3_reconciliation_sync_and_idempotence [3]
     ⟨[⟨1, "active", "premium", none, true, 0, 0⟩,
       ⟨2, "pending", "trial", some 5, true, 0, 0⟩], [], [], []⟩ 9 (by decide)⟩

/-- The head of a filtered list is the first element satisfying the
predicate. -/
theorem head?_filter_eq_find? {α : Type} (p : α → Bool) (l : List α) :
    (l.filter p).head? = l.find? p := by
  induction l with
  | nil => rfl
  | cons a l ih =>
    by_cases h : p a
    · simp [List.filter_cons, h, List.find?_cons, List.head?]
    · simp only [List.filter_cons, List.find?_cons]
      simp only [h, Bool.false_eq_true, ite_false, cond_false]
      exact ih

/-- `find?` returns the first match: the list splits into a prefix with no
match, the returned element, and a suffix. -/
theorem find?_eq_some_first {α : Type} (p : α → Bool) :
    ∀ (l : List α) (b : α), l.find? p = some b ↔
      (p b = true ∧ ∃ pre post, l = pre ++ b :: post ∧ ∀ a ∈ pre, p a = false) := by
  intro l
  induction l with
  | nil =>
    intro b
    simp [List.find?]
  | cons a l ih =>
    intro b
    rw [List.find?_cons]
    by_cases h : p a
    · simp only [h, cond_true]
      constructor
      · rintro hb
        have : a = b := by simpa using hb
        subst this
        exact ⟨h, [], l, rfl, by simp⟩
      · rintro ⟨hpb, pre, post, heq, hpre⟩
        cases pre with
        | nil =>
          simp only [List.nil_append] at heq
          simp [List.cons.injEq] at heq
          simp [heq.1]
        | cons c pre =>
          have hc : c = a := by
            have := congrArg List.head? heq
            simpa using this.symm
          have : p a = false := hc ▸ hpre c (List.mem_cons_self c pre)
          rw [this] at h
          simp at h
    · simp only [h, cond_false]
      rw [ih b]
      constructor
      · rintro ⟨hpb, pre, post, heq, hpre⟩
        refine ⟨hpb, a :: pre, post, by rw [heq]; rfl, ?_⟩
        intro x hx
        rcases List.mem_cons.mp hx with rfl | hx2
        · simpa using h
        · exact hpre x hx2
      · rintro ⟨hpb, pre, post, heq, hpre⟩
        cases pre with
        | nil =>
          simp only [List.nil_append] at heq
          have : a = b := by simpa using congrArg List.head? heq
          subst this
          rw [hpb] at h
          simp at h
        | cons c pre =>
          have hc : c = a := by simpa using (congrArg List.head? heq).symm
          subst hc
          have htail : l = pre ++ b :: post := by
            simpa using congrArg List.tail heq
          exact ⟨hpb, pre, post, htail,
            fun x hx => hpre x (List.mem_cons_of_mem c hx)⟩

/-- C9 (amended): `get_active_subscription` returns the first verified,
unexpired subscription row of the bot in storage order — the query applies no
ordering, so overlapping windows are not resolved by the later `end`
timestamp; the returned row is the earliest stored match, every earlier row
failing the filter. -/
theorem C9_first_match_window (db : DB) (bot_id now : Nat) :
    crud.get_active_subscription db bot_id now =
      db.subscriptions.find? (subMatches bot_id now) ∧
    (∀ s, crud.get_active_subscription db bot_id now = some s →
      (subMatches bot_id now s = true ∧
       ∃ pre post, db.subscriptions = pre ++ s :: post ∧
         ∀ a ∈ pre, subMatches bot_id now a = false)) ∧
    (crud.get_active_subscription db bot_id now = none ↔
      ∀ s ∈ db.subscriptions, subMatches bot_id now s = false) := by
  have heq : crud.get_active_subscription db bot_id now =
      db.subscriptions.find? (subMatches bot_id now) := by
    unfold crud.get_active_subscription subMatches
    exact head?_filter_eq_find? _ _
  refine ⟨heq, ?_, ?_⟩
  · intro s hs
    rw [heq] at hs
    exact (find?_eq_some_first (subMatches bot_id now) db.subscriptions s).mp hs
  · rw [heq]
    constructor
    · intro hn s hs
      have := List.find?_eq_none.mp hn s hs
      simpa using this
    · intro hall
      exact List.find?_eq_none.mpr fun x hx => by simp [hall x hx]

/-- Witness for C9 (amended) at a concrete store. -/
theorem C9_witness :
    crud.get_active_subscription ⟨[], [⟨1, "verified", 100⟩], [], []⟩ 1 50 =
      some ⟨1, "verified", 100⟩ ∧
    subMatches 1 50 ⟨1, "verified", 100⟩ = true :=
  ⟨by decide,
   ((C9_first_match_window ⟨[], [⟨1, "verified", 100⟩], [], []⟩ 1 50).2.1
     ⟨1, "verified", 100⟩ (by decide)).1⟩

/-- Counterexample for C9 as stated: two overlapping verified unexpired
windows, where the stored-first window ends earlier; the entitlement check
returns it, not the window with the later `end`. -/
theorem C9_counterexample :
    (subMatches 1 50 ⟨1, "verified", 100⟩ = true ∧
     subMatches 1 50 ⟨1, "verified", 200⟩ = true) ∧
    crud.get_active_subscription
      ⟨[], [⟨1, "verified", 100⟩, ⟨1, "verified", 200⟩], [], []⟩ 1 50 =
      some ⟨1, "verified", 100⟩ ∧
    (100 : Nat) < 200 := by
  refine ⟨⟨?_, ?_⟩, ?_, ?_⟩ <;> decide

/-- Translating to `banglish` is the identity. -/
theorem translate_banglish (s : String) : LanguageManager.translate s "banglish" = s := rfl

/-- The fallback pick is one of the five fixed fallback strings. -/
theorem get_fallback_mem (rand : Nat) :
    AIEngine.get_fallback_response rand ∈ AIEngine.fallbacks :=
  randomChoice_mem _ _ (by decide)

/-- Every fixed fallback string is non-empty. -/
theorem fallbacks_ne_empty : ∀ s ∈ AIEngine.fallbacks, s ≠ "" := by decide

/-- Every predefined-table reply is non-empty. -/
theorem greetings_vals_ne_empty : ∀ kv ∈ AIEngine.greetings, kv.2 ≠ "" := by decide

/-- A predefined lookup hit is a non-empty string. -/
theorem check_predefined_ne_empty (m r : String)
    (h : AIEngine.check_predefined_responses m = some r) : r ≠ "" := by
  unfold AIEngine.check_predefined_responses at h
  cases hf : AIEngine.greetings.find? (fun kv => strIn kv.1 (pyLower m)) with
  | some kv =>
    rw [hf] at h
    have : r = kv.2 := by simpa using h.symm
    rw [this]
    exact greetings_vals_ne_empty kv (List.mem_of_find?_eq_some hf)
  | none =>
    rw [hf] at h
    cases hf2 : AIEngine.help_keywords.find? (fun k => strIn k (pyLower m)) with
    | some k =>
      rw [hf2] at h
      have : r = AIEngine.helpResponse := by simpa using h.symm
      rw [this]
      decide
    | none =>
      rw [hf2] at h
      simp at h

/-- The synthesized acknowledgment is never empty. -/
theorem ackOf_ne_empty (w : String) : AIEngine.ackOf w ≠ "" :=
  append_ne_empty_right _ _ (by decide)

/-- A learned-pattern hit is a non-empty string. -/
theorem check_learned_ne_empty (l : LearningData) (m r : String)
    (h : AIEngine.check_learned_patterns l m = some r) : r ≠ "" := by
  unfold AIEngine.check_learned_patterns at h
  simp only [] at h
  split at h
  · exact absurd h (by simp)
  · cases hb : (AIEngine.bestPattern l.user_patterns (pySplit (pyLower m)).dedup).2 with
    | none =>
      rw [hb] at h
      simp at h
    | some bm =>
      rw [hb] at h
      simp only [] at h
      split at h
      · cases hf : List.find? (fun kv => decide (kv.2 > 5)) l.response_patterns with
        | none =>
          rw [hf] at h
          simp at h
        | some kv =>
          rw [hf] at h
          simp only [] at h
          injection h with h2
          rw [← h2]
          exact ackOf_ne_empty _
      · exact absurd h (by simp)

/-- The heuristic stage always produces a non-empty string (a sentiment marker
is appended last). -/
theorem contextual_ne_empty (t : ResponseTemplates) (m : String)
    (l : LearningData) (rand : Nat) :
    AIEngine.generate_contextual_response t m l rand ≠ "" := by
  simp only [AIEngine.generate_contextual_response]
  split
  · exact append_ne_empty_right _ _ (by decide)
  · split
    · exact append_ne_empty_right _ _ (by decide)
    · exact append_ne_empty_right _ _ (by decide)

/-- With the worker's default language, the engine never returns the empty
string. -/
theorem generate_response_ne_empty (t : ResponseTemplates) (l : LearningData)
    (m : String) (exc : Bool) (rand : Nat) :
    AIEngine.generate_response t l "banglish" m exc rand ≠ "" := by
  unfold AIEngine.generate_response
  by_cases he : exc = true
  · rw [if_pos he]
    exact fallbacks_ne_empty _ (get_fallback_mem rand)
  · rw [if_neg he]
    cases hp : AIEngine.check_predefined_responses (pyLower (pyStrip m)) with
    | some r =>
      simp only [hp]
      rw [translate_banglish]
      exact check_predefined_ne_empty _ r hp
    | none =>
      simp only [hp]
      cases hl : AIEngine.check_learned_patterns l (pyLower (pyStrip m)) with
      | some r =>
        simp only [hl]
        exact check_learned_ne_empty l _ r hl
      | none =>
        simp only [hl]
        rw [if_neg (by simp)]
        exact contextual_ne_empty t m l rand

/-- C1: for every message text and tenant learning state (and any template
buckets and randomness), the engine — invoked as the Bot Worker invokes it,
with its default `banglish` language — returns a non-empty string, and
whenever the cascade raises internally (the exception oracle `exc`), the
result is one of the five fixed fallback responses. -/
theorem C1_engine_total_nonempty_fallback (t : ResponseTemplates)
    (l : LearningData) (m : String) (exc : Bool) (rand : Nat) :
    AIEngine.generate_response t l "banglish" m exc rand ≠ "" ∧
    (exc = true →
      AIEngine.generate_response t l "banglish" m exc rand ∈ AIEngine.fallbacks) := by
  refine ⟨generate_response_ne_empty t l m exc rand, fun he => ?_⟩
  unfold AIEngine.generate_response
  rw [if_pos he]
  exact get_fallback_mem rand

/-- Witness for C1 at a concrete failing-cascade input. -/
theorem C1_witness :
    AIEngine.generate_response (fun _ => []) ⟨[], [], ContextData.empty, 0⟩
      "banglish" "hello" true 0 ≠ "" ∧
    AIEngine.generate_response (fun _ => []) ⟨[], [], ContextData.empty, 0⟩
      "banglish" "hello" true 0 ∈ AIEngine.fallbacks :=
  ⟨(C1_engine_total_nonempty_fallback (fun _ => []) ⟨[], [], ContextData.empty, 0⟩
      "hello" true 0).1,
   (C1_engine_total_nonempty_fallback (fun _ => []) ⟨[], [], ContextData.empty, 0⟩
      "hello" true 0).2 rfl⟩

/-- When the gate condition holds, the handler returns with no reply, no new
rows and no learning update. -/
theorem handle_drop (templates : ResponseTemplates) (db : DB)
    (bot_id admin_chat_id self_id : Nat) (is_cloning : Bool) (sender : Nat)
    (message_text : String) (now rand : Nat) (exc : Bool)
    (hd : dropCondition db bot_id admin_chat_id self_id sender now = true) :
    GhostBot.handle_incoming_message templates db bot_id admin_chat_id self_id
      is_cloning sender message_text now rand exc = ⟨[], false, db, false⟩ := by
  unfold dropCondition at hd
  unfold GhostBot.handle_incoming_message
  by_cases hs : sender = admin_chat_id ∨ sender = self_id
  · rw [if_pos hs]
  · rw [if_neg hs]
    have hsb : (sender == admin_chat_id || sender == self_id) = false := by
      simp only [Bool.or_eq_false_iff, beq_eq_false_iff_ne, ne_eq]
      exact ⟨fun e => hs (Or.inl e), fun e => hs (Or.inr e)⟩
    rw [hsb, Bool.false_or] at hd
    cases hb : crud.get_bot db bot_id with
    | none => rfl
    | some bot =>
      rw [hb] at hd
      simp only [] at hd ⊢
      by_cases hst : bot.status ≠ "active"
      · rw [if_pos hst]
      · rw [if_neg hst]
        push_neg at hst
        have hstb : (bot.status != "active") = false := by simp [hst]
        rw [hstb, Bool.false_or] at hd
        simp only [Bool.and_eq_true] at hd
        rcases hd with ⟨⟨hd1, hd2⟩, hd3⟩
        rw [if_pos ⟨by simp [Option.isNone_iff_eq_none.mp hd1],
          by simpa using hd2, hd3⟩]

/-- When the gate condition fails, the handler runs the full exchange: the
generated reply is sent, a ghost-mode conversation row is appended, the
learning row (if any) is updated in place, and the bot row's activity is
stamped. -/
theorem handle_processed (templates : ResponseTemplates) (db : DB)
    (bot_id admin_chat_id self_id : Nat) (is_cloning : Bool) (sender : Nat)
    (message_text : String) (now rand : Nat) (exc : Bool)
    (hd : dropCondition db bot_id admin_chat_id self_id sender now = false) :
    ∃ bot, crud.get_bot db bot_id = some bot ∧
      GhostBot.handle_incoming_message templates db bot_id admin_chat_id self_id
        is_cloning sender message_text now rand exc =
      (let learning := crud.get_learning db bot_id
       let ai_response := AIEngine.generate_response templates
         (AIEngine.get_learning_data learning) "banglish" message_text exc rand
       let db1 : DB := { db with conversations := db.conversations ++
         [⟨bot_id, sender, admin_chat_id, message_text, ai_response, true⟩] }
       let db2 : DB :=
         match learning with
         | some l =>
           let l' := GhostBot.update_learning_patterns l message_text ai_response now
           { db1 with learnings := GhostBot.setLearning db1.learnings bot_id l' }
         | none => db1
       ⟨[ai_response], bot.profile_clone && is_cloning,
        { db2 with bots := GhostBot.touchBot db2.bots bot_id now },
        (crud.get_learning db bot_id).isSome⟩) := by
  unfold dropCondition at hd
  unfold GhostBot.handle_incoming_message
  by_cases hs : sender = admin_chat_id ∨ sender = self_id
  · exfalso
    have : (sender == admin_chat_id || sender == self_id) = true := by
      rcases hs with h | h <;> simp [h]
    rw [this] at hd
    simp at hd
  · rw [if_neg hs]
    have hsb : (sender == admin_chat_id || sender == self_id) = false := by
      simp only [Bool.or_eq_false_iff, beq_eq_false_iff_ne, ne_eq]
      exact ⟨fun e => hs (Or.inl e), fun e => hs (Or.inr e)⟩
    rw [hsb, Bool.false_or] at hd
    cases hb : crud.get_bot db bot_id with
    | none =>
      rw [hb] at hd
      simp at hd
    | some bot =>
      rw [hb] at hd
      simp only [] at hd ⊢
      refine ⟨bot, rfl, ?_⟩
      by_cases hst : bot.status ≠ "active"
      · exfalso
        have : (bot.status != "active") = true := by simpa using hst
        rw [this] at hd
        simp at hd
      · rw [if_neg hst]
        push_neg at hst
        have hstb : (bot.status != "active") = false := by simp [hst]
        rw [hstb, Bool.false_or] at hd
        rw [if_neg ?hc]
        case hc =>
          rintro ⟨h1, h2, h3⟩
          have : ((crud.get_active_subscription db bot_id now).isNone &&
              bot.plan_type == "trial" &&
              GhostBot.trialExpired bot.trial_expiry now) = true := by
            simp only [Bool.and_eq_true]
            exact ⟨⟨by simpa using h1, by simpa using h2⟩, h3⟩
          rw [this] at hd
          simp at hd

/-- C2 (amended): the worker drops an inbound private message silently — empty
reply list, unchanged database, no learning update — exactly when the gate
condition holds: the sender is the admin or the bot itself, the bot row is
missing or not `active`, or there is no verified unexpired subscription while
the plan type is `trial` and the trial expiry has passed (or is absent).  In
every other case, including an active non-trial tenant with no subscription at
all, a reply is sent. -/
theorem C2_drop_iff_gate (templates : ResponseTemplates) (db : DB)
    (bot_id admin_chat_id self_id : Nat) (is_cloning : Bool) (sender : Nat)
    (message_text : String) (now rand : Nat) (exc : Bool) :
    ((GhostBot.handle_incoming_message templates db bot_id admin_chat_id self_id
        is_cloning sender message_text now rand exc).replies = [] ↔
      dropCondition db bot_id admin_chat_id self_id sender now = true) ∧
    (dropCondition db bot_id admin_chat_id self_id sender now = true →
      GhostBot.handle_incoming_message templates db bot_id admin_chat_id self_id
        is_cloning sender message_text now rand exc = ⟨[], false, db, false⟩) := by
  constructor
  · constructor
    · intro hrep
      cases hdb : dropCondition db bot_id admin_chat_id self_id sender now with
      | true => rfl
      | false =>
        exfalso
        rcases handle_processed templates db bot_id admin_chat_id self_id
          is_cloning sender message_text now rand exc hdb with ⟨bot, hb, heq⟩
        have hr := congrArg GhostBot.HandleResult.replies heq
        simp only [] at hr
        rw [hrep] at hr
        simp at hr
    · intro hd
      rw [handle_drop templates db bot_id admin_chat_id self_id
        is_cloning sender message_text now rand exc hd]
  · exact handle_drop templates db bot_id admin_chat_id self_id
      is_cloning sender message_text now rand exc

/-- Witness for C2 (amended) at a concrete dropped message (pending bot). -/
theorem C2_witness :
    dropCondition ⟨[⟨1, "pending", "trial", some 5, true, 0, 0⟩], [], [], []⟩
      1 5 6 99 1000 = true ∧
    GhostBot.handle_incoming_message (fun _ => [])
      ⟨[⟨1, "pending", "trial", some 5, true, 0, 0⟩], [], [], []⟩
      1 5 6 true 99 "x" 1000 0 false =
      ⟨[], false, ⟨[⟨1, "pending", "trial", some 5, true, 0, 0⟩], [], [], []⟩, false⟩ :=
  ⟨by decide,
   (C2_drop_iff_gate (fun _ => [])
     ⟨[⟨1, "pending", "trial", some 5, true, 0, 0⟩], [], [], []⟩
     1 5 6 true 99 "x" 1000 0 false).2 (by decide)⟩

/-- Counterexample for C2 as stated: an `active` tenant on a non-trial plan
with no subscription rows at all (so no verified unexpired subscription and no
trial window — not entitled in the claim's sense) still gets a reply, a
conversation row is persisted, and the bot's message counter is bumped. -/
theorem C2_counterexample :
    (⟨[⟨1, "active", "premium", none, true, 0, 0⟩], [], [], []⟩ : DB).subscriptions
      = [] ∧
    (GhostBot.handle_incoming_message (fun _ => [])
      ⟨[⟨1, "active", "premium", none, true, 0, 0⟩], [], [], []⟩
      1 5 6 true 99 "x" 1000 0 false).replies = ["জি বলুন, আমি শুনছি। 😊 💫"] ∧
    (GhostBot.handle_incoming_message (fun _ => [])
      ⟨[⟨1, "active", "premium", none, true, 0, 0⟩], [], [], []⟩
      1 5 6 true 99 "x" 1000 0 false).db.conversations =
      [⟨1, 99, 5, "x", "জি বলুন, আমি শুনছি। 😊 💫", true⟩] := by
  refine ⟨rfl, ?_, ?_⟩ <;> decide

/-- C10: an inbound private message to an active, entitled tenant — entitled
through a verified unexpired subscription or through an open (unexpired) trial
window — that has no `Learning` row is still answered: the generated reply is
sent, a ghost-mode `Conversation` row is appended, yet no learning update runs
and no `Learning` row is created — the learnings table is returned
unchanged. -/
theorem C10_missing_learning_row_skips_learning (templates : ResponseTemplates)
    (db : DB) (bot_id admin_chat_id self_id : Nat) (is_cloning : Bool)
    (sender : Nat) (message_text : String) (now rand : Nat) (exc : Bool)
    (bot : TenantBot)
    (hs1 : sender ≠ admin_chat_id) (hs2 : sender ≠ self_id)
    (hb : crud.get_bot db bot_id = some bot) (hst : bot.status = "active")
    (hent : (crud.get_active_subscription db bot_id now).isSome = true ∨
      GhostBot.trialExpired bot.trial_expiry now = false)
    (hlearn : crud.get_learning db bot_id = none) :
    ∃ r, (GhostBot.handle_incoming_message templates db bot_id admin_chat_id
        self_id is_cloning sender message_text now rand exc).replies = [r] ∧
      (GhostBot.handle_incoming_message templates db bot_id admin_chat_id
        self_id is_cloning sender message_text now rand exc).db.conversations =
        db.conversations ++ [⟨bot_id, sender, admin_chat_id, message_text, r, true⟩] ∧
      (GhostBot.handle_incoming_message templates db bot_id admin_chat_id
        self_id is_cloning sender message_text now rand exc).db.learnings =
        db.learnings ∧
      (GhostBot.handle_incoming_message templates db bot_id admin_chat_id
        self_id is_cloning sender message_text now rand exc).learning_updated =
        false := by
  have hd : dropCondition db bot_id admin_chat_id self_id sender now = false := by
    unfold dropCondition
    rw [hb]
    have h1 : (sender == admin_chat_id) = false := by simpa using hs1
    have h2 : (sender == self_id) = false := by simpa using hs2
    have h3 : (bot.status != "active") = false := by simp [hst]
    rcases hent with hsub | htr
    · have h4 : (crud.get_active_subscription db bot_id now).isNone = false := by
        rcases Option.isSome_iff_exists.mp hsub with ⟨s, hs⟩
        simp [hs]
      simp [h1, h2, h3, h4]
    · simp [h1, h2, h3, htr]
  rcases handle_processed templates db bot_id admin_chat_id self_id
    is_cloning sender message_text now rand exc hd with ⟨bot', hb', heq⟩
  rw [hlearn] at heq
  simp only [] at heq
  refine ⟨AIEngine.generate_response templates (AIEngine.get_learning_data none)
    "banglish" message_text exc rand, ?_, ?_, ?_, ?_⟩
  · rw [heq]
  · rw [heq]
  · rw [heq]
  · rw [heq]
    rfl

/-- Witness for C10 at a concrete trial-entitled tenant: active bot on plan
`trial` with an open (unexpired) trial window, no subscription rows at all,
and no learning row. -/
theorem C10_witness :
    ((99 : Nat) ≠ 5 ∧ (99 : Nat) ≠ 6 ∧
     crud.get_bot ⟨[⟨1, "active", "trial", some 5000, true, 0, 0⟩], [], [], []⟩ 1 =
       some ⟨1, "active", "trial", some 5000, true, 0, 0⟩ ∧
     ((crud.get_active_subscription
         ⟨[⟨1, "active", "trial", some 5000, true, 0, 0⟩], [], [], []⟩ 1 1000).isSome =
         true ∨
       GhostBot.trialExpired (some 5000) 1000 = false) ∧
     crud.get_learning ⟨[⟨1, "active", "trial", some 5000, true, 0, 0⟩], [], [], []⟩ 1 =
       none) ∧
    (∃ r, (GhostBot.handle_incoming_message (fun _ => [])
        ⟨[⟨1, "active", "trial", some 5000, true, 0, 0⟩], [], [], []⟩
        1 5 6 true 99 "hi" 1000 0 false).replies = [r] ∧
      (GhostBot.handle_incoming_message (fun _ => [])
        ⟨[⟨1, "active", "trial", some 5000, true, 0, 0⟩], [], [], []⟩
        1 5 6 true 99 "hi" 1000 0 false).db.conversations =
        (⟨[⟨1, "active", "trial", some 5000, true, 0, 0⟩], [], [], []⟩ :
          DB).conversations ++ [⟨1, 99, 5, "hi", r, true⟩] ∧
      (GhostBot.handle_incoming_message (fun _ => [])
        ⟨[⟨1, "active", "trial", some 5000, true, 0, 0⟩], [], [], []⟩
        1 5 6 true 99 "hi" 1000 0 false).db.learnings =
        (⟨[⟨1, "active", "trial", some 5000, true, 0, 0⟩], [], [], []⟩ :
          DB).learnings ∧
      (GhostBot.handle_incoming_message (fun _ => [])
        ⟨[⟨1, "active", "trial", some 5000, true, 0, 0⟩], [], [], []⟩
        1 5 6 true 99 "hi" 1000 0 false).learning_updated = false) :=
  ⟨⟨by decide, by decide, by decide, Or.inr (by decide), by decide⟩,
   C10_missing_learning_row_skips_learning (fun _ => [])
     ⟨[⟨1, "active", "trial", some 5000, true, 0, 0⟩], [], [], []⟩
     1 5 6 true 99 "hi" 1000 0 false ⟨1, "active", "trial", some 5000, true, 0, 0⟩
     (by decide) (by decide) (by decide) (by decide) (Or.inr (by decide)) (by decide)⟩

/-- C6 (amended): the two pattern-store updaters use different minimum
token-length cutoffs — the engine counts tokens of length above 2, the worker
tokens of length above 3.  Given the same starting maps and texts none of
whose whitespace tokens has length exactly 3, they produce equal inbound and
outbound frequency maps. -/
theorem C6_cutoff_agreement (d : LearningData) (lrec : Learning)
    (u r : String) (now : Nat)
    (hu : d.user_patterns = lrec.user_patterns)
    (hr : d.response_patterns = lrec.response_patterns)
    (h3u : ∀ w ∈ pySplit (pyLower u), w.length ≠ 3)
    (h3r : ∀ w ∈ pySplit (pyLower r), w.length ≠ 3) :
    (AIEngine.update_patterns d u r).user_patterns =
      (GhostBot.update_learning_patterns lrec u r now).user_patterns ∧
    (AIEngine.update_patterns d u r).response_patterns =
      (GhostBot.update_learning_patterns lrec u r now).response_patterns := by
  have key : ∀ (ws : List String) (m : FreqMap), (∀ w ∈ ws, w.length ≠ 3) →
      ws.foldl (fun m word =>
        if word.length > 2 then dictSet m word (dictGetD m word 0 + 1) else m) m =
      ws.foldl (fun m word =>
        if word.length > 3 then
          if ¬ dictContains m word then dictSet m word 1
          else dictSet m word (dictGetD m word 0 + 1)
        else m) m := by
    intro ws
    induction ws with
    | nil =>
      intro m _
      rfl
    | cons w ws ih =>
      intro m hws
      simp only [List.foldl_cons]
      have hw3 : w.length ≠ 3 := hws w (List.mem_cons_self w ws)
      have hstep : (if w.length > 2 then dictSet m w (dictGetD m w 0 + 1) else m) =
          (if w.length > 3 then
            if ¬ dictContains m w then dictSet m w 1
            else dictSet m w (dictGetD m w 0 + 1)
          else m) := by
        by_cases h2 : w.length > 2
        · have h3 : w.length > 3 := by omega
          rw [if_pos h2, if_pos h3]
          by_cases hc : dictContains m w = true
          · rw [if_neg (fun hn => hn hc)]
          · rw [if_pos hc, dictGetD_of_not_contains m w 0 hc]
        · rw [if_neg h2, if_neg (by omega)]
      rw [hstep]
      exact ih _ (fun x hx => hws x (List.mem_cons_of_mem w hx))
  constructor
  · unfold AIEngine.update_patterns GhostBot.update_learning_patterns
    simp only []
    rw [hu]
    exact key (pySplit (pyLower u)) lrec.user_patterns h3u
  · unfold AIEngine.update_patterns GhostBot.update_learning_patterns
    simp only []
    rw [hr]
    exact key (pySplit (pyLower r)) lrec.response_patterns h3r

/-- Witness for C6 (amended) on texts with no length-3 token. -/
theorem C6_witness :
    ((∀ w ∈ pySplit (pyLower "good morning"), w.length ≠ 3) ∧
     (∀ w ∈ pySplit (pyLower "thanks friend"), w.length ≠ 3)) ∧
    ((AIEngine.update_patterns ⟨[], [], ContextData.empty, 0⟩
        "good morning" "thanks friend").user_patterns =
      (GhostBot.update_learning_patterns ⟨1, [], [], ContextData.empty, 0, 0, none⟩
        "good morning" "thanks friend" 0).user_patterns ∧
     (AIEngine.update_patterns ⟨[], [], ContextData.empty, 0⟩
        "good morning" "thanks friend").response_patterns =
      (GhostBot.update_learning_patterns ⟨1, [], [], ContextData.empty, 0, 0, none⟩
        "good morning" "thanks friend" 0).response_patterns) :=
  ⟨⟨by decide, by decide⟩,
   C6_cutoff_agreement ⟨[], [], ContextData.empty, 0⟩
     ⟨1, [], [], ContextData.empty, 0, 0, none⟩ "good morning" "thanks friend" 0
     rfl rfl (by decide) (by decide)⟩

/-- Counterexample for C6 as stated: on the single token `"abc"` (length 3)
the engine's updater (cutoff above 2) records the token while the worker's
updater (cutoff above 3) does not, so the two implementations do not apply the
same cutoff and produce different maps from equal starting maps. -/
theorem C6_counterexample :
    (AIEngine.update_patterns ⟨[], [], ContextData.empty, 0⟩ "abc" "").user_patterns
      = [("abc", 1)] ∧
    (GhostBot.update_learning_patterns ⟨1, [], [], ContextData.empty, 0, 0, none⟩
      "abc" "" 0).user_patterns = [] := by
  constructor <;> decide

/-- An `if`-update by a strictly greater candidate computes the maximum. -/
theorem ite_gt_eq_max (a b : ℚ) : (if b > a then b else a) = max a b := by
  rcases le_or_lt b a with h | h
  · rw [if_neg (not_lt.mpr h), max_eq_left h]
  · rw [if_pos h, max_eq_right h.le]

/-- The first component of the best-match fold is the maximum score over the
tokens of the map that occur in the message, starting from the initial 0. -/
theorem bestPattern_fst (up : FreqMap) (ws : List String) :
    (AIEngine.bestPattern up ws).1 =
      (up.filter (fun p => decide (p.1 ∈ ws))).foldl
        (fun x p => max x ((p.2 : ℚ) / (ws.length : ℚ))) 0 := by
  suffices H : ∀ (ps : FreqMap) (a : ℚ) (o : Option String),
      (ps.foldl (fun acc p =>
        if p.1 ∈ ws then
          let score : ℚ := (p.2 : ℚ) / (ws.length : ℚ)
          if score > acc.1 then (score, some p.1) else acc
        else acc) (a, o)).1 =
      (ps.filter (fun p => decide (p.1 ∈ ws))).foldl
        (fun x p => max x ((p.2 : ℚ) / (ws.length : ℚ))) a by
    exact H up 0 none
  intro ps
  induction ps with
  | nil =>
    intro a o
    rfl
  | cons p ps ih =>
    intro a o
    simp only [List.foldl_cons, List.filter_cons]
    by_cases hm : p.1 ∈ ws
    · have hd : decide (p.1 ∈ ws) = true := by simpa using hm
      rw [hd]
      simp only [if_true, ite_true, List.foldl_cons]
      rw [if_pos hm]
      by_cases hgt : ((p.2 : ℚ) / (ws.length : ℚ)) > a
      · rw [if_pos hgt, ih, max_eq_right hgt.le]
      · rw [if_neg hgt, ih, max_eq_left (not_lt.mp hgt)]
    · have hd : decide (p.1 ∈ ws) = false := by simpa using hm
      rw [hd]
      simp only [Bool.false_eq_true, if_false, ite_false]
      rw [if_neg hm]
      exact ih a o

/-- The best-match fold either leaves the accumulator untouched or returns a
strictly increased score together with a matched token of the message. -/
theorem bestPattern_cases (up : FreqMap) (ws : List String) :
    AIEngine.bestPattern up ws = (0, none) ∨
    ((AIEngine.bestPattern up ws).1 > 0 ∧
      ∃ w, (AIEngine.bestPattern up ws).2 = some w ∧ w ∈ ws) := by
  suffices H : ∀ (ps : FreqMap) (a : ℚ) (o : Option String),
      (ps.foldl (fun acc p =>
        if p.1 ∈ ws then
          let score : ℚ := (p.2 : ℚ) / (ws.length : ℚ)
          if score > acc.1 then (score, some p.1) else acc
        else acc) (a, o)) = (a, o) ∨
      ((ps.foldl (fun acc p =>
        if p.1 ∈ ws then
          let score : ℚ := (p.2 : ℚ) / (ws.length : ℚ)
          if score > acc.1 then (score, some p.1) else acc
        else acc) (a, o)).1 > a ∧
        ∃ w, (ps.foldl (fun acc p =>
          if p.1 ∈ ws then
            let score : ℚ := (p.2 : ℚ) / (ws.length : ℚ)
            if score > acc.1 then (score, some p.1) else acc
          else acc) (a, o)).2 = some w ∧ w ∈ ws) by
    exact H up 0 none
  intro ps
  induction ps with
  | nil =>
    intro a o
    exact Or.inl rfl
  | cons p ps ih =>
    intro a o
    simp only [List.foldl_cons]
    by_cases hm : p.1 ∈ ws
    · rw [if_pos hm]
      by_cases hgt : ((p.2 : ℚ) / (ws.length : ℚ)) > a
      · rw [if_pos hgt]
        rcases ih ((p.2 : ℚ) / (ws.length : ℚ)) (some p.1) with heq | ⟨hgt2, w, hw, hws⟩
        · right
          rw [heq]
          exact ⟨hgt, p.1, rfl, hm⟩
        · right
          exact ⟨lt_trans hgt hgt2, w, hw, hws⟩
      · rw [if_neg hgt]
        exact ih a o
    · rw [if_neg hm]
      exact ih a o

/-- C4 (amended): the learned-pattern stage equals the amended description:
distinct-token scoring with the maximal score, and — above the 0.3 threshold —
an acknowledgment referencing the first outbound token in store order with
frequency above 5 (falling through when none qualifies). -/
theorem C4_learned_stage_first_qualifying (learning : LearningData) (message : String) :
    AIEngine.check_learned_patterns learning message =
      learnedStageAmended learning message := by
  unfold AIEngine.check_learned_patterns learnedStageAmended
  by_cases h0 : (learning.user_patterns.isEmpty || learning.response_patterns.isEmpty) = true
  · rw [if_pos h0, if_pos h0]
  · rw [if_neg h0, if_neg h0]
    simp only []
    have hfst := bestPattern_fst learning.user_patterns
      ((pySplit (pyLower message)).dedup)
    have hcases := bestPattern_cases learning.user_patterns
      ((pySplit (pyLower message)).dedup)
    rcases hcases with heq | ⟨hpos, w, hw, hws⟩
    · rw [heq] at hfst ⊢
      simp only [] at hfst ⊢
      rw [← hfst]
      rw [if_neg (by norm_num)]
    · rw [hw]
      simp only []
      have hne : w ≠ "" :=
        mem_pySplit_ne_empty (pyLower message) w (List.mem_dedup.mp hws)
      by_cases hth : (AIEngine.bestPattern learning.user_patterns
          ((pySplit (pyLower message)).dedup)).1 > (3 : ℚ) / 10
      · have hcond : w ≠ "" ∧ (AIEngine.bestPattern learning.user_patterns
            ((pySplit (pyLower message)).dedup)).1 > (3 : ℚ) / 10 := ⟨hne, hth⟩
        rw [if_pos hcond, ← hfst, if_pos hth]
        cases hf : learning.response_patterns.find? (fun kv => decide (kv.2 > 5)) with
        | none => rfl
        | some kv => rfl
      · have hncond : ¬ (w ≠ "" ∧ (AIEngine.bestPattern learning.user_patterns
            ((pySplit (pyLower message)).dedup)).1 > (3 : ℚ) / 10) := fun hc => hth hc.2
        rw [if_neg hncond, ← hfst, if_neg hth]

/-- Counterexample for C4 as stated: inbound store `[("xx", 1)]`, outbound
store `[("aaa", 6), ("bbb", 10)]`, message `"xx"` (best score 1 > 0.3).  The
stage returns the acknowledgment referencing `"aaa"`, the FIRST token in store
order with frequency above 5 — not the most frequent qualifying token, which
is `"bbb"` with frequency 10. -/
theorem C4_counterexample :
    AIEngine.check_learned_patterns
      ⟨[("xx", 1)], [("aaa", 6), ("bbb", 10)], ContextData.empty, 0⟩ "xx" =
      some (AIEngine.ackOf "aaa") ∧
    mostFrequentOutbound [("aaa", 6), ("bbb", 10)] 5 = some "bbb" ∧
    AIEngine.ackOf "aaa" ≠ AIEngine.ackOf "bbb" := by
  refine ⟨?_, by decide, by decide⟩
  have hws : (pySplit (pyLower "xx")).dedup = ["xx"] := by decide
  have hbp : AIEngine.bestPattern [("xx", 1)] ["xx"] = ((1 : ℚ), some "xx") := by
    unfold AIEngine.bestPattern
    norm_num
  unfold AIEngine.check_learned_patterns
  rw [if_neg (by decide)]
  simp only []
  rw [hws, hbp]
  simp only []
  rw [if_pos (⟨by decide, by norm_num⟩ :
    ("xx" : String) ≠ "" ∧ ((1 : ℚ), some "xx").1 > (3 : ℚ) / 10)]
  decide

/-- Incrementing one key never decreases any key's stored frequency. -/
theorem dictIncr_getD_le (m : FreqMap) (w' x : String) :
    dictGetD m x 0 ≤ dictGetD (dictSet m w' (dictGetD m w' 0 + 1)) x 0 := by
  by_cases h : x = w'
  · subst h
    rw [dictGetD_dictSet_self]
    omega
  · rw [dictGetD_dictSet_ne m w' x _ _ h]

/-- Writing frequency 1 to a missing key never decreases any stored
frequency. -/
theorem dictSetOne_getD_le (m : FreqMap) (w' x : String)
    (hc : ¬ dictContains m w' = true) :
    dictGetD m x 0 ≤ dictGetD (dictSet m w' 1) x 0 := by
  by_cases h : x = w'
  · subst h
    rw [dictGetD_dictSet_self, dictGetD_of_not_contains m x 0 hc]
    omega
  · rw [dictGetD_dictSet_ne m w' x _ _ h]

/-- The engine's token fold (cutoff above 2) is pointwise monotone. -/
theorem engineFold_getD (ws : List String) :
    ∀ (m : FreqMap) (x : String),
      dictGetD m x 0 ≤ dictGetD (ws.foldl (fun m word =>
        if word.length > 2 then dictSet m word (dictGetD m word 0 + 1) else m) m) x 0 := by
  induction ws with
  | nil =>
    intro m x
    exact le_refl _
  | cons w ws ih =>
    intro m x
    simp only [List.foldl_cons]
    refine le_trans ?_ (ih _ x)
    by_cases hlen : w.length > 2
    · rw [if_pos hlen]
      exact dictIncr_getD_le m w x
    · rw [if_neg hlen]

/-- The worker's token fold (cutoff above 3) is pointwise monotone. -/
theorem ghostFold_getD (ws : List String) :
    ∀ (m : FreqMap) (x : String),
      dictGetD m x 0 ≤ dictGetD (ws.foldl (fun m word =>
        if word.length > 3 then
          if ¬ dictContains m word then dictSet m word 1
          else dictSet m word (dictGetD m word 0 + 1)
        else m) m) x 0 := by
  induction ws with
  | nil =>
    intro m x
    exact le_refl _
  | cons w ws ih =>
    intro m x
    simp only [List.foldl_cons]
    refine le_trans ?_ (ih _ x)
    by_cases hlen : w.length > 3
    · rw [if_pos hlen]
      by_cases hc : dictContains m w = true
      · rw [if_neg (fun hn => hn hc)]
        exact dictIncr_getD_le m w x
      · rw [if_pos hc]
        exact dictSetOne_getD_le m w x hc
    · rw [if_neg hlen]

/-- The engine's token fold never shrinks the vocabulary. -/
theorem engineFold_len (ws : List String) :
    ∀ (m : FreqMap), m.length ≤ (ws.foldl (fun m word =>
      if word.length > 2 then dictSet m word (dictGetD m word 0 + 1) else m) m).length := by
  induction ws with
  | nil =>
    intro m
    exact le_refl _
  | cons w ws ih =>
    intro m
    simp only [List.foldl_cons]
    refine le_trans ?_ (ih _)
    by_cases hlen : w.length > 2
    · rw [if_pos hlen]
      exact (length_dictSet m w _).1
    · rw [if_neg hlen]

/-- The worker's token fold never shrinks the vocabulary. -/
theorem ghostFold_len (ws : List String) :
    ∀ (m : FreqMap), m.length ≤ (ws.foldl (fun m word =>
      if word.length > 3 then
        if ¬ dictContains m word then dictSet m word 1
        else dictSet m word (dictGetD m word 0 + 1)
      else m) m).length := by
  induction ws with
  | nil =>
    intro m
    exact le_refl _
  | cons w ws ih =>
    intro m
    simp only [List.foldl_cons]
    refine le_trans ?_ (ih _)
    by_cases hlen : w.length > 3
    · rw [if_pos hlen]
      by_cases hc : dictContains m w = true
      · rw [if_neg (fun hn => hn hc)]
        exact (length_dictSet m w _).1
      · rw [if_pos hc]
        exact (length_dictSet m w _).1
    · rw [if_neg hlen]

/-- One update operation is pointwise monotone on both frequency maps. -/
theorem applyOp_freq_mono (l : Learning) (op : PatternOp) (x : String) :
    dictGetD l.user_patterns x 0 ≤ dictGetD (applyPatternOp l op).user_patterns x 0 ∧
    dictGetD l.response_patterns x 0 ≤
      dictGetD (applyPatternOp l op).response_patterns x 0 := by
  cases op with
  | engine u r =>
    unfold applyPatternOp AIEngine.update_patterns
    simp only []
    exact ⟨engineFold_getD _ _ x, engineFold_getD _ _ x⟩
  | worker u r now =>
    unfold applyPatternOp GhostBot.update_learning_patterns
    simp only []
    exact ⟨ghostFold_getD _ _ x, ghostFold_getD _ _ x⟩

/-- One update operation never shrinks the combined vocabulary size. -/
theorem applyOp_size_mono (l : Learning) (op : PatternOp) :
    vocabSize l ≤ vocabSize (applyPatternOp l op) := by
  cases op with
  | engine u r =>
    unfold vocabSize applyPatternOp AIEngine.update_patterns
    simp only []
    exact Nat.add_le_add (engineFold_len _ _) (engineFold_len _ _)
  | worker u r now =>
    unfold vocabSize applyPatternOp GhostBot.update_learning_patterns
    simp only []
    exact Nat.add_le_add (ghostFold_len _ _) (ghostFold_len _ _)

/-- The engine operation stores exactly the recomputed saturating accuracy
whenever the resulting vocabulary is non-empty, and keeps the old accuracy
otherwise. -/
theorem applyOp_engine_acc (l : Learning) (u r : String) :
    (applyPatternOp l (.engine u r)).accuracy_score =
      if 0 < vocabSize (applyPatternOp l (.engine u r)) then
        min 1 ((vocabSize (applyPatternOp l (.engine u r)) : ℚ) / 1000)
      else l.accuracy_score := rfl

/-- The worker operation never touches the accuracy scalar. -/
theorem applyOp_worker_acc (l : Learning) (u r : String) (now : Nat) :
    (applyPatternOp l (.worker u r now)).accuracy_score = l.accuracy_score := rfl

/-- One update operation preserves the saturating-accuracy invariant and never
decreases the accuracy scalar. -/
theorem applyOp_acc_inv (l : Learning) (op : PatternOp)
    (h : l.accuracy_score ≤ min 1 ((vocabSize l : ℚ) / 1000)) :
    (applyPatternOp l op).accuracy_score ≤
      min 1 ((vocabSize (applyPatternOp l op) : ℚ) / 1000) ∧
    l.accuracy_score ≤ (applyPatternOp l op).accuracy_score := by
  have hsize := applyOp_size_mono l op
  have hmin : min 1 ((vocabSize l : ℚ) / 1000) ≤
      min 1 ((vocabSize (applyPatternOp l op) : ℚ) / 1000) := by
    refine min_le_min (le_refl 1) ?_
    exact (div_le_div_right (by norm_num)).mpr (by exact_mod_cast hsize)
  cases op with
  | worker u r now =>
    rw [applyOp_worker_acc]
    exact ⟨le_trans h hmin, le_refl _⟩
  | engine u r =>
    rw [applyOp_engine_acc]
    by_cases hpos : 0 < vocabSize (applyPatternOp l (.engine u r))
    · rw [if_pos hpos]
      exact ⟨le_refl _, le_trans h hmin⟩
    · rw [if_neg hpos]
      exact ⟨le_trans h hmin, le_refl _⟩

/-- A sequence of update operations is pointwise monotone on both maps. -/
theorem foldOps_freq_mono (ops : List PatternOp) :
    ∀ (l : Learning) (x : String),
      dictGetD l.user_patterns x 0 ≤
        dictGetD (ops.foldl applyPatternOp l).user_patterns x 0 ∧
      dictGetD l.response_patterns x 0 ≤
        dictGetD (ops.foldl applyPatternOp l).response_patterns x 0 := by
  induction ops with
  | nil =>
    intro l x
    exact ⟨le_refl _, le_refl _⟩
  | cons op ops ih =>
    intro l x
    simp only [List.foldl_cons]
    exact ⟨le_trans (applyOp_freq_mono l op x).1 (ih _ x).1,
      le_trans (applyOp_freq_mono l op x).2 (ih _ x).2⟩

/-- A sequence of update operations never shrinks the vocabulary. -/
theorem foldOps_size_mono (ops : List PatternOp) :
    ∀ (l : Learning), vocabSize l ≤ vocabSize (ops.foldl applyPatternOp l) := by
  induction ops with
  | nil =>
    intro l
    exact le_refl _
  | cons op ops ih =>
    intro l
    simp only [List.foldl_cons]
    exact le_trans (applyOp_size_mono l op) (ih _)

/-- A sequence of update operations preserves the saturating-accuracy
invariant and never decreases the accuracy scalar. -/
theorem foldOps_acc (ops : List PatternOp) :
    ∀ (l : Learning), l.accuracy_score ≤ min 1 ((vocabSize l : ℚ) / 1000) →
      (ops.foldl applyPatternOp l).accuracy_score ≤
        min 1 ((vocabSize (ops.foldl applyPatternOp l) : ℚ) / 1000) ∧
      l.accuracy_score ≤ (ops.foldl applyPatternOp l).accuracy_score := by
  induction ops with
  | nil =>
    intro l h
    exact ⟨h, le_refl _⟩
  | cons op ops ih =>
    intro l h
    simp only [List.foldl_cons]
    have hstep := applyOp_acc_inv l op h
    have hrest := ih (applyPatternOp l op) hstep.1
    exact ⟨hrest.1, le_trans hstep.2 hrest.2⟩

/-- The store after `m` operations continues from the store after `n ≤ m`
operations by the remaining segment. -/
theorem storeAt_decompose (l : Learning) (ops : List PatternOp) {n m : Nat}
    (h : n ≤ m) :
    storeAt l ops m = ((ops.take m).drop n).foldl applyPatternOp (storeAt l ops n) := by
  unfold storeAt
  conv_lhs => rw [← List.take_append_drop n (ops.take m)]
  rw [List.foldl_append, List.take_take, min_eq_left h]

/-- The store after `n` operations equals the fold of the first `n`
operations. -/
theorem storeAt_eq_fold (l : Learning) (ops : List PatternOp) (n : Nat) :
    storeAt l ops n = (ops.take n).foldl applyPatternOp l := rfl

/-- Stepping the store once more applies the `n`-th operation. -/
theorem storeAt_succ (l : Learning) (ops : List PatternOp) (n : Nat)
    (op : PatternOp) (hop : ops[n]? = some op) :
    storeAt l ops (n + 1) = applyPatternOp (storeAt l ops n) op := by
  unfold storeAt
  rw [List.take_succ, List.foldl_append, hop]
  rfl

/-- C5: along any sequence of pattern-store update operations starting from a
store whose accuracy satisfies the saturating bound (as every freshly created
store does), each token's inbound and outbound frequency is monotonically
non-decreasing, after every engine recomputation with a non-empty vocabulary
the accuracy equals `min(1, (inbound_vocab + outbound_vocab) / 1000)`, and the
accuracy never decreases and never exceeds 1. -/
theorem C5_frequencies_monotone_accuracy_saturating (l : Learning)
    (ops : List PatternOp)
    (h0 : l.accuracy_score ≤ min 1 ((vocabSize l : ℚ) / 1000)) :
    (∀ n m x, n ≤ m →
      dictGetD (storeAt l ops n).user_patterns x 0 ≤
        dictGetD (storeAt l ops m).user_patterns x 0 ∧
      dictGetD (storeAt l ops n).response_patterns x 0 ≤
        dictGetD (storeAt l ops m).response_patterns x 0) ∧
    (∀ n u r, ops[n]? = some (.engine u r) →
      0 < vocabSize (storeAt l ops (n + 1)) →
      (storeAt l ops (n + 1)).accuracy_score =
        min 1 ((vocabSize (storeAt l ops (n + 1)) : ℚ) / 1000)) ∧
    (∀ n m, n ≤ m →
      (storeAt l ops n).accuracy_score ≤ (storeAt l ops m).accuracy_score) ∧
    (∀ n, (storeAt l ops n).accuracy_score ≤ 1) := by
  have hP : ∀ n, (storeAt l ops n).accuracy_score ≤
      min 1 ((vocabSize (storeAt l ops n) : ℚ) / 1000) := by
    intro n
    rw [storeAt_eq_fold]
    exact (foldOps_acc (ops.take n) l h0).1
  refine ⟨?_, ?_, ?_, ?_⟩
  · intro n m x hnm
    rw [storeAt_decompose l ops hnm]
    exact foldOps_freq_mono _ _ x
  · intro n u r hop hpos
    rw [storeAt_succ l ops n _ hop] at hpos ⊢
    rw [applyOp_engine_acc, if_pos hpos]
  · intro n m hnm
    rw [storeAt_decompose l ops hnm]
    exact (foldOps_acc _ _ (hP n)).2
  · intro n
    exact le_trans (hP n) (min_le_left 1 _)

/-- Witness for C5 at a fresh store and one engine operation. -/
theorem C5_witness :
    ((⟨1, [], [], ContextData.empty, 0, 0, none⟩ : Learning).accuracy_score ≤
      min 1 ((vocabSize ⟨1, [], [], ContextData.empty, 0, 0, none⟩ : ℚ) / 1000)) ∧
    ((∀ n m x, n ≤ m →
      dictGetD (storeAt ⟨1, [], [], ContextData.empty, 0, 0, none⟩
        [.engine "hello there" "ok thanks"] n).user_patterns x 0 ≤
        dictGetD (storeAt ⟨1, [], [], ContextData.empty, 0, 0, none⟩
          [.engine "hello there" "ok thanks"] m).user_patterns x 0 ∧
      dictGetD (storeAt ⟨1, [], [], ContextData.empty, 0, 0, none⟩
        [.engine "hello there" "ok thanks"] n).response_patterns x 0 ≤
        dictGetD (storeAt ⟨1, [], [], ContextData.empty, 0, 0, none⟩
          [.engine "hello there" "ok thanks"] m).response_patterns x 0) ∧
    (∀ n u r, ([PatternOp.engine "hello there" "ok thanks"])[n]? =
        some (.engine u r) →
      0 < vocabSize (storeAt ⟨1, [], [], ContextData.empty, 0, 0, none⟩
        [.engine "hello there" "ok thanks"] (n + 1)) →
      (storeAt ⟨1, [], [], ContextData.empty, 0, 0, none⟩
        [.engine "hello there" "ok thanks"] (n + 1)).accuracy_score =
        min 1 ((vocabSize (storeAt ⟨1, [], [], ContextData.empty, 0, 0, none⟩
          [.engine "hello there" "ok thanks"] (n + 1)) : ℚ) / 1000)) ∧
    (∀ n m, n ≤ m →
      (storeAt ⟨1, [], [], ContextData.empty, 0, 0, none⟩
        [.engine "hello there" "ok thanks"] n).accuracy_score ≤
        (storeAt ⟨1, [], [], ContextData.empty, 0, 0, none⟩
          [.engine "hello there" "ok thanks"] m).accuracy_score) ∧
    (∀ n, (storeAt ⟨1, [], [], ContextData.empty, 0, 0, none⟩
      [.engine "hello there" "ok thanks"] n).accuracy_score ≤ 1)) :=
  ⟨by norm_num [vocabSize],
   C5_frequencies_monotone_accuracy_saturating
     ⟨1, [], [], ContextData.empty, 0, 0, none⟩
     [.engine "hello there" "ok thanks"] (by norm_num [vocabSize])⟩
